import Mathlib

/-!
Verification development for the langgraph-service knowledge pipelines
(ingestion and reasoning workflows, scoring agents, result merging).

The Python sources are shallowly embedded: each Python function becomes a
Lean definition over explicit state records; floats become rationals;
fallible collaborator calls (embedding, LLM, vector store, graph store)
become `Except String` computations supplied by an `Oracle` record; the
LangGraph step graph becomes an explicit driver that records the executed
steps as a trace.
-/

/-- Word accumulator for `pyWords`: `cur` holds the reversed characters
of the word being read. -/
def wordsGo (cur : List Char) : List Char → List String
  | [] => if cur.isEmpty then [] else [String.mk cur.reverse]
  | c :: cs =>
    if c.isWhitespace then
      if cur.isEmpty then wordsGo [] cs else String.mk cur.reverse :: wordsGo [] cs
    else wordsGo (c :: cur) cs

/-- Python `str.split()` with no arguments: split on whitespace runs and
drop empty pieces. -/
def pyWords (s : String) : List String := wordsGo [] s.data

/-- Python `str.strip()`: drop leading and trailing whitespace. -/
def pyStrip (s : String) : String :=
  ⟨((s.data.dropWhile Char.isWhitespace).reverse.dropWhile Char.isWhitespace).reverse⟩

/-- Python `str.lower()` (ASCII case folding suffices for the phrases
the heuristics scan for). -/
def pyLower (s : String) : String := ⟨s.data.map Char.toLower⟩

/-- Python `s[:n]` slicing by code points. -/
def pyTake (s : String) (n : Nat) : String := ⟨s.data.take n⟩

/-- Does `pat` match at the head of `l`? (Helper for substring search.) -/
def leadEq : List Char → List Char → Bool
  | [], _ => true
  | _ :: _, [] => false
  | a :: as, b :: bs => a == b && leadEq as bs

/-- Does `pat` occur contiguously anywhere in `l`? -/
def subOccurs (pat : List Char) : List Char → Bool
  | [] => leadEq pat []
  | c :: rest => leadEq pat (c :: rest) || subOccurs pat rest

/-- Python `pat in s` substring containment. -/
def strIn (pat s : String) : Bool := subOccurs pat.toList s.toList

/-- Minimal node view used by the heuristic agents: they read only the
`id` and `content` fields of the node dictionaries they are handed. -/
structure CNode where
  id : String
  content : String
deriving Repr, DecidableEq

/-- `ValidationResult` from models/state.py. -/
structure ValidationResult where
  is_valid : Bool
  confidence : ℚ
  issues : List String
  suggestions : List String
deriving Repr, DecidableEq

/-- `ContradictionAnalysis` from models/state.py. -/
structure ContradictionAnalysis where
  has_contradiction : Bool
  conflicting_nodes : List String
  severity : String
  resolution_suggestions : List String
deriving Repr, DecidableEq

/-- One entry of the internal `contradictions` list built by
`ContradictionAgent.detect_contradictions`. -/
structure Contradiction where
  node1 : String
  node2 : String
  ctype : String
  description : String
  severity : String
deriving Repr, DecidableEq

/-- The dictionary returned by `ContradictionAgent._check_contradiction`
when a match is found (`type`, `description`, `severity`). -/
structure ContradictionInfo where
  ctype : String
  description : String
  severity : String
deriving Repr, DecidableEq

/-- The fixed polarity-opposite phrase pairs scanned by
`ContradictionAgent._check_contradiction`. -/
def contradiction_patterns : List (String × String) :=
  [("is", "is not"), ("true", "false"), ("yes", "no"), ("correct", "incorrect")]

/-- `ContradictionAgent._check_contradiction`: returns the record for the
first pattern whose positive phrase occurs in `node1`'s lower-cased
content and whose negative phrase occurs in `node2`'s. -/
def ContradictionAgent.check_contradiction (node1 node2 : CNode) : Option ContradictionInfo :=
  let content1 := pyLower node1.content
  let content2 := pyLower node2.content
  (contradiction_patterns.find? (fun pr => strIn pr.1 content1 && strIn pr.2 content2)).map
    (fun pr =>
      { ctype := "direct_contradiction"
        description := "Direct contradiction detected: \x27" ++ pr.1 ++ "\x27 vs \x27" ++ pr.2 ++ "\x27"
        severity := "high" })

/-- The internal `contradictions` list of
`ContradictionAgent.detect_contradictions`: one record per (new, existing)
pair for which `_check_contradiction` matched, holding both ids. -/
def ContradictionAgent.contradiction_records (nodes existing_nodes : List CNode) : List Contradiction :=
  nodes.flatMap (fun node =>
    existing_nodes.filterMap (fun ex =>
      (ContradictionAgent.check_contradiction node ex).map (fun c =>
        { node1 := node.id, node2 := ex.id
          ctype := c.ctype, description := c.description, severity := c.severity })))

/-- `ContradictionAgent._generate_resolution_suggestions`. -/
def ContradictionAgent.generate_resolution_suggestions (contradictions : List Contradiction) : List String :=
  contradictions.flatMap (fun c =>
    ["Review nodes " ++ c.node1 ++ " and " ++ c.node2 ++ " for factual accuracy",
     "Consider updating confidence scores based on source reliability",
     "May require human expert review for resolution"])

/-- Python `max(l, default=d)` on strings: lexicographic maximum of the
list, or `d` when the list is empty. (The code builds a `severity_levels`
rank dictionary but never uses it; the actual aggregation is this plain
string `max`.) -/
def pyMaxString : List String → String → String
  | [], d => d
  | x :: xs, _ => xs.foldl (fun a b => if a < b then b else a) x

/-- `ContradictionAgent.detect_contradictions`. The caller passes
`existing_graph` as a dict; the agent reads only `existing_graph.get("nodes", [])`,
modelled here as the `existing_nodes` parameter. -/
def ContradictionAgent.detect_contradictions (nodes existing_nodes : List CNode) : ContradictionAnalysis :=
  let contradictions := ContradictionAgent.contradiction_records nodes existing_nodes
  { has_contradiction := !contradictions.isEmpty
    conflicting_nodes := contradictions.map (fun c => c.node1)
    severity := pyMaxString (contradictions.map (fun c => c.severity)) "low"
    resolution_suggestions := ContradictionAgent.generate_resolution_suggestions contradictions }

/-- One entry of the `gaps` list of `ResearchAgent.identify_gaps`. -/
structure Gap where
  gtype : String
  description : String
  severity : String
deriving Repr, DecidableEq

/-- The dictionary returned by `ResearchAgent.identify_gaps`. -/
structure GapAnalysis where
  gaps : List Gap
  coverage_score : ℚ
  research_suggestions : List String
deriving Repr, DecidableEq

/-- `ResearchAgent._identify_conceptual_gaps`: one aggregate low-severity
`depth_gap` listing every node whose content has fewer than 50 words.
(The recency check in the source is a comment only.) -/
def ResearchAgent.identify_conceptual_gaps (nodes : List CNode) : List Gap :=
  let shallow_responses := (nodes.filter (fun n => (pyWords n.content).length < 50)).map (fun n => n.id)
  if shallow_responses.isEmpty then []
  else
    [{ gtype := "depth_gap"
       description := "Some concepts lack detailed explanations (nodes: " ++
         String.intercalate ", " shallow_responses ++ ")"
       severity := "low" }]

/-- `ResearchAgent._generate_research_suggestions`. -/
def ResearchAgent.generate_research_suggestions (gaps : List Gap) : List String :=
  gaps.filterMap (fun gap =>
    if gap.gtype == "terminology_gap" then some ("Research the missing terms: " ++ gap.description)
    else if gap.gtype == "depth_gap" then some "Expand explanations for identified shallow concepts"
    else if gap.gtype == "recency_gap" then some "Update outdated information"
    else none)

/-- The set of lower-cased whitespace tokens of the query. -/
def queryTermSet (query : String) : Finset String := (pyWords (pyLower query)).toFinset

/-- The `covered_terms` accumulation of `ResearchAgent.identify_gaps`:
fold over the retrieved nodes, adding each node's tokens intersected with
the query terms. -/
def coveredTermSet (query : String) (retrieved_nodes : List CNode) : Finset String :=
  retrieved_nodes.foldl
    (fun acc node => acc ∪ ((pyWords (pyLower node.content)).toFinset ∩ queryTermSet query)) ∅

/-- `ResearchAgent.identify_gaps`. Python iterates the `missing_terms`
set in unspecified hash order to build the description string; the model
renders it sorted (claims do not depend on that string). -/
def ResearchAgent.identify_gaps (query : String) (retrieved_nodes : List CNode) : GapAnalysis :=
  let query_terms := queryTermSet query
  let covered_terms := coveredTermSet query retrieved_nodes
  let missing_terms := query_terms \ covered_terms
  let termGaps : List Gap :=
    if missing_terms = ∅ then []
    else
      [{ gtype := "terminology_gap"
         description := "Missing information about: " ++
           String.intercalate ", " (missing_terms.sort (· ≤ ·))
         severity := "medium" }]
  let coverage_score : ℚ :=
    if query_terms ≠ ∅ then (covered_terms.card : ℚ) / (query_terms.card : ℚ) else 1
  let gaps := termGaps ++ ResearchAgent.identify_conceptual_gaps retrieved_nodes
  { gaps := gaps
    coverage_score := coverage_score
    research_suggestions := ResearchAgent.generate_research_suggestions gaps }

/-- The metadata dictionary attached to each created `KnowledgeNode`:
the caller-supplied metadata enriched with source and chunk provenance
(ingestion.py, `process_content`). -/
structure NodeMeta where
  base : List (String × String)
  source : Option String
  chunk_index : Nat
  total_chunks : Nat
  content_length : Nat
deriving Repr, DecidableEq

/-- `KnowledgeNode` from models/state.py, as produced by the ingestion
agent (its embedding is always present there). -/
structure KnowledgeNode where
  id : String
  content : String
  embedding : List ℚ
  metadata : NodeMeta
  confidence : ℚ
  created_at : String
  updated_at : String
deriving Repr, DecidableEq

/-- One alignment record of `AlignmentAgent.analyze_alignment`. -/
structure AlignmentRecord where
  new_node : String
  existing_node : String
  similarity : ℚ
  relationship_type : String
deriving Repr, DecidableEq

/-- One proposed relationship of `AlignmentAgent.analyze_alignment`
(`properties` holds the single `similarity_score` entry). -/
structure NewRelationship where
  from_id : String
  to_id : String
  rtype : String
  similarity_score : ℚ
  confidence : ℚ
deriving Repr, DecidableEq

/-- The dictionary returned by `AlignmentAgent.analyze_alignment`. -/
structure AlignmentResult where
  alignments : List AlignmentRecord
  new_relationships : List NewRelationship
  integration_confidence : ℚ
deriving Repr, DecidableEq

/-- `AlignmentAgent._calculate_similarity`: word-set Jaccard overlap of
the lower-cased contents (0 when the union is empty). -/
def AlignmentAgent.calculate_similarity (node1 node2 : CNode) : ℚ :=
  let words1 := (pyWords (pyLower node1.content)).toFinset
  let words2 := (pyWords (pyLower node2.content)).toFinset
  let inter := words1 ∩ words2
  let uni := words1 ∪ words2
  if uni = ∅ then 0 else (inter.card : ℚ) / (uni.card : ℚ)

/-- `AlignmentAgent.analyze_alignment`. The workflow's only call site
passes `existing_graph = \x7b"nodes": [], "relationships": []\x7d`, so
`existing_graph.get("similar_nodes", [])` is always `[]`: both loops are
empty and the result is constant. (Were `similar_nodes` nonempty, the
Python would subscript the plain id strings in `nodes` and raise; that
branch is dead at every call site and is not modelled.) -/
def AlignmentAgent.analyze_alignment (nodes : List String) : AlignmentResult :=
  let _ := nodes
  { alignments := [], new_relationships := [], integration_confidence := 17/20 }

/-- `KnowledgeIngestionState` from models/state.py. The keys that steps
add to the dict during a run (`validation_result`, `embeddings_data`,
`alignment_result`, `contradiction_result`, `embeddings_stored`) are
modelled as `Option` fields that start out `none`. -/
structure KIState where
  workflow_id : String
  status : String
  current_step : String
  start_time : String
  end_time : Option String
  error : Option String
  content : String
  source : Option String
  metadata : List (String × String)
  nodes_created : List String
  edges_created : List String
  embedding_generated : Bool
  graph_updated : Bool
  validation_result : Option ValidationResult := none
  embeddings_data : Option (List (String × List ℚ × KnowledgeNode)) := none
  alignment_result : Option AlignmentResult := none
  contradiction_result : Option ContradictionAnalysis := none
  embeddings_stored : Option Bool := none
deriving Repr, DecidableEq

/-- `IngestionAgent.validate_content`: flags short content and low word
count as blocking issues, question-dominated content as a non-blocking
suggestion; confidence drops by 0.2 per issue, floored at 0.1. -/
def IngestionAgent.validate_content (state : KIState) : ValidationResult :=
  let content := state.content
  let issues :=
    (if (pyStrip content).length < 10 then ["Content too short"] else []) ++
    (if (pyWords content).length < 5 then ["Content has too few words"] else [])
  let suggestions :=
    (if (pyStrip content).length < 10 then ["Provide more detailed content"] else []) ++
    (if (pyWords content).length < 5 then ["Expand on the topic with more information"] else []) ++
    (if content.toList.count '?' > content.toList.count '.' then
      ["Content appears to be mostly questions - consider adding explanatory text"] else [])
  let confidence : ℚ := 1 - issues.length * (1/5)
  { is_valid := issues.length == 0
    confidence := max (1/10) confidence
    issues := issues
    suggestions := suggestions }

/-- One element of Qdrant `search_similar`'s result list:
`\x7b"id", "score", "metadata"\x7d`. -/
structure VectorResult where
  id : String
  score : ℚ
  metadata : List (String × String)
deriving Repr, DecidableEq

/-- The node dictionary inside one Neo4j `search_nodes` result; any key
may be absent, which the workflow reads with `.get` defaults. -/
structure GraphNodeData where
  id : Option String
  content : Option String
  metadata : Option (List (String × String))
  created_at : Option String
  updated_at : Option String
deriving Repr, DecidableEq

/-- One element of Neo4j `search_nodes`'s result list:
`\x7b"node", "score"\x7d`. -/
structure GraphResult where
  node : GraphNodeData
  score : ℚ
deriving Repr, DecidableEq

/-- The node dictionaries built by
`ReasoningWorkflow._combine_search_results` (the shape of
`retrieved_nodes` entries; `embedding` is always `None` there). -/
structure CombinedRecord where
  id : String
  content : String
  embedding : Option (List ℚ)
  metadata : List (String × String)
  confidence : ℚ
  created_at : String
  updated_at : String
deriving Repr, DecidableEq

/-- Python `d.get(k, default)` over a string-keyed association list. -/
def pyGetD (m : List (String × String)) (k d : String) : String :=
  ((m.lookup k).getD d)

/-- Association-list lookup used to model membership in the `combined`
dict of `_combine_search_results`. -/
def alookup (k : String) : List (String × CombinedRecord) → Option CombinedRecord
  | [] => none
  | (k2, v) :: rest => if k2 = k then some v else alookup k rest

/-- The record `_combine_search_results` builds from a vector result. -/
def vecRecord (r : VectorResult) : CombinedRecord :=
  { id := r.id
    content := pyGetD r.metadata "content" ""
    embedding := none
    metadata := r.metadata
    confidence := r.score
    created_at := pyGetD r.metadata "created_at" ""
    updated_at := pyGetD r.metadata "updated_at" "" }

/-- The record `_combine_search_results` builds from a graph result whose
node dictionary carried the (truthy) id `node_id`. -/
def graphRecord (node_id : String) (r : GraphResult) : CombinedRecord :=
  { id := node_id
    content := r.node.content.getD ""
    embedding := none
    metadata := r.node.metadata.getD []
    confidence := r.score
    created_at := r.node.created_at.getD ""
    updated_at := r.node.updated_at.getD "" }

/-- First loop of `_combine_search_results`: insert each vector result
under its id unless the id is already present. -/
def insertVectorResults : List VectorResult → List (String × CombinedRecord) → List (String × CombinedRecord)
  | [], m => m
  | r :: rs, m =>
    insertVectorResults rs
      (if (alookup r.id m).isSome then m else m ++ [(r.id, vecRecord r)])

/-- Second loop of `_combine_search_results`: insert each graph result
under its node id when that id is truthy (present and nonempty) and not
already present. -/
def insertGraphResults : List GraphResult → List (String × CombinedRecord) → List (String × CombinedRecord)
  | [], m => m
  | r :: rs, m =>
    insertGraphResults rs
      (match r.node.id with
       | some nid => if nid ≠ "" ∧ (alookup nid m).isNone then m ++ [(nid, graphRecord nid r)] else m
       | none => m)

/-- The final `combined` dict of `_combine_search_results`, as an
insertion-ordered association list with unique keys. -/
def combinedMap (vector_results : List VectorResult) (graph_results : List GraphResult) :
    List (String × CombinedRecord) :=
  insertGraphResults graph_results (insertVectorResults vector_results [])

/-- `ReasoningWorkflow._combine_search_results`:
`list(combined.values())`. -/
def ReasoningWorkflow.combine_search_results (vector_results : List VectorResult)
    (graph_results : List GraphResult) : List CombinedRecord :=
  (combinedMap vector_results graph_results).map Prod.snd

/-- Projection of a combined record to the fields that the heuristic
agents read. -/
def CombinedRecord.toCNode (r : CombinedRecord) : CNode := { id := r.id, content := r.content }

/-- The external collaborators of both workflows: clock, chunker,
embedding model, LLM, vector store and graph store. Every call that goes
over the wire (or into the embedding/LLM libraries) may raise, modelled
as `Except String`; the chunker is an in-process pure library call. -/
structure Oracle where
  now : String
  split_text : String → List String
  encode : String → Except String (List ℚ)
  llm : String → Except String String
  search_similar : List ℚ → Nat → Except String (List VectorResult)
  search_nodes : String → Nat → Except String (List GraphResult)
  store_embedding : String → List ℚ → NodeMeta → Except String Unit
  create_knowledge_node : String → String → ℚ → String → NodeMeta → Except String Unit
  create_relationship : String → String → String → ℚ → Except String Unit

/-- The dictionary returned by `IngestionAgent.process_content`:
the node-id list, the (id, embedding, node) tuples, and the agent's own
updated state copy (the one in which it set `embedding_generated`). -/
structure ProcessResult where
  nodes : List String
  embeddings : List (String × List ℚ × KnowledgeNode)
  state : KIState
deriving Repr, DecidableEq

/-- `IngestionAgent.process_content`: chunk the content, embed each chunk,
build one `KnowledgeNode` per chunk with id `"wid_chunk_i"` and initial
confidence 0.8, and return the ids, the embedding tuples and an updated
state copy with `embedding_generated = True`. -/
def IngestionAgent.process_content (o : Oracle) (state : KIState) : Except String ProcessResult :=
  let content := state.content
  let metadata := state.metadata
  let source := state.source
  let chunks := o.split_text content
  let entryOf : Nat × String → Except String (String × List ℚ × KnowledgeNode) := fun p =>
    let i := p.1
    let chunk := p.2
    let node_id := state.workflow_id ++ "_chunk_" ++ toString i
    match o.encode chunk with
    | .error e => .error e
    | .ok embedding =>
      let node : KnowledgeNode :=
        { id := node_id
          content := chunk
          embedding := embedding
          metadata :=
            { base := metadata, source := source, chunk_index := i
              total_chunks := chunks.length, content_length := chunk.length }
          confidence := 4/5
          created_at := o.now
          updated_at := o.now }
      .ok (node_id, embedding, node)
  match chunks.enum.mapM entryOf with
  | .error e => .error e
  | .ok entries =>
    let nodes_created := entries.map (fun e => e.1)
    .ok
      { nodes := nodes_created
        embeddings := entries
        state :=
          { state with
              nodes_created := nodes_created
              embedding_generated := true
              current_step := "content_processed" } }

/-- The state written by `KnowledgeWorkflow._validate_content`. -/
def KnowledgeWorkflow.validate_state (s : KIState) : KIState :=
  { s with current_step := "validation_complete",
           validation_result := some (IngestionAgent.validate_content s) }

/-- `KnowledgeWorkflow._validate_content` (the workflow step). -/
def KnowledgeWorkflow.validate_content (s : KIState) : Except String KIState :=
  .ok (KnowledgeWorkflow.validate_state s)

/-- `KnowledgeWorkflow._should_process`: branch on
`validation_result.get("is_valid", False)`. -/
def KnowledgeWorkflow.should_process (s : KIState) : String :=
  match s.validation_result with
  | some v => if v.is_valid then "process" else "reject"
  | none => "reject"

/-- The state written by `KnowledgeWorkflow._process_content`: only the
node-id list and embedding tuples are copied out of the agent result (the
agent's own state copy in `result["state"]` is discarded). -/
def KnowledgeWorkflow.process_state (result : ProcessResult) (s : KIState) : KIState :=
  { s with nodes_created := result.nodes
           embeddings_data := some result.embeddings
           current_step := "content_processed" }

/-- `KnowledgeWorkflow._process_content` (the workflow step): copies only
the node-id list and embedding tuples out of the agent result. -/
def KnowledgeWorkflow.process_content (o : Oracle) (s : KIState) : Except String KIState :=
  match IngestionAgent.process_content o s with
  | .error e => .error e
  | .ok result => .ok (KnowledgeWorkflow.process_state result s)

/-- The state written by `KnowledgeWorkflow._check_alignment`; the
existing-graph context passed to the agent is the empty stub. -/
def KnowledgeWorkflow.align_state (s : KIState) : KIState :=
  { s with alignment_result := some (AlignmentAgent.analyze_alignment s.nodes_created)
           current_step := "alignment_checked" }

/-- `KnowledgeWorkflow._check_alignment` (the workflow step). -/
def KnowledgeWorkflow.check_alignment (s : KIState) : Except String KIState :=
  .ok (KnowledgeWorkflow.align_state s)

/-- The state written by `KnowledgeWorkflow._detect_contradictions`. The
workflow hands the agent the id strings in `nodes_created` (wrapped into
node views whose content is never read here, because the stubbed existing
graph has no nodes: the agent's inner loop is empty). -/
def KnowledgeWorkflow.detect_state (s : KIState) : KIState :=
  { s with contradiction_result :=
             some (ContradictionAgent.detect_contradictions
               (s.nodes_created.map (fun i => CNode.mk i i)) [])
           current_step := "contradictions_checked" }

/-- `KnowledgeWorkflow._detect_contradictions` (the workflow step). -/
def KnowledgeWorkflow.detect_contradictions (s : KIState) : Except String KIState :=
  .ok (KnowledgeWorkflow.detect_state s)

/-- `KnowledgeWorkflow._should_store`: proceed to storage iff
`contradiction_result.get("has_contradiction", False)` is false. -/
def KnowledgeWorkflow.should_store (s : KIState) : String :=
  match s.contradiction_result with
  | some c => if c.has_contradiction then "review" else "store"
  | none => "store"

/-- The state written by `KnowledgeWorkflow._store_embeddings`. -/
def KnowledgeWorkflow.store_state (s : KIState) : KIState :=
  { s with embeddings_stored := some true, current_step := "embeddings_stored" }

/-- `KnowledgeWorkflow._store_embeddings` (the workflow step): upsert
every (id, embedding, node-metadata) tuple into the vector store. -/
def KnowledgeWorkflow.store_embeddings (o : Oracle) (s : KIState) : Except String KIState :=
  let embeddings_data := s.embeddings_data.getD []
  match embeddings_data.forM (fun e => o.store_embedding e.1 e.2.1 e.2.2.metadata) with
  | .error e => .error e
  | .ok _ => .ok (KnowledgeWorkflow.store_state s)

/-- The state written by `KnowledgeWorkflow._update_graph`. -/
def KnowledgeWorkflow.update_state (relationships : List NewRelationship) (s : KIState) : KIState :=
  { s with graph_updated := true
           edges_created := relationships.map (fun r => r.from_id ++ "->" ++ r.to_id)
           current_step := "graph_updated" }

/-- `KnowledgeWorkflow._update_graph`. The Python iterates
`state.get("nodes_created", [])` — a list of plain id strings — and
subscripts each as if it were a node dictionary (`node_data["id"]`,
`node_data["content"]`, ...), which raises `TypeError` on the first
element; so the step fails whenever any node was created, and only the
(always empty) relationship loop runs otherwise. -/
def KnowledgeWorkflow.update_graph (o : Oracle) (s : KIState) : Except String KIState :=
  match s.nodes_created with
  | _ :: _ => .error "TypeError: string indices must be integers"
  | [] =>
    let relationships := (s.alignment_result.map (fun a => a.new_relationships)).getD []
    match relationships.forM
        (fun r => o.create_relationship r.from_id r.to_id r.rtype r.similarity_score) with
    | .error e => .error e
    | .ok _ => .ok (KnowledgeWorkflow.update_state relationships s)

/-- `KnowledgeWorkflow._finalize_ingestion`'s updated state. -/
def KnowledgeWorkflow.finalize_state (o : Oracle) (s : KIState) : KIState :=
  { s with status := "completed", end_time := some o.now, current_step := "completed" }

/-- `KnowledgeWorkflow._finalize_ingestion`. -/
def KnowledgeWorkflow.finalize_ingestion (o : Oracle) (s : KIState) : Except String KIState :=
  .ok (KnowledgeWorkflow.finalize_state o s)

/-- Run one named step: on success append the produced state to the
trace of executed steps, on failure return the trace so far with the
failure description. -/
def applyStep {σ : Type} (name : String) (f : σ → Except String σ)
    (tr : List (String × σ)) (s : σ) :
    Except (List (String × σ) × String) (List (String × σ) × σ) :=
  match f s with
  | .ok s2 => .ok (tr ++ [(name, s2)], s2)
  | .error e => .error (tr, e)

/-- The compiled ingestion graph (`app.ainvoke`): validate, branch on
`_should_process` (reject goes straight to END), process, align, detect,
branch on `_should_store` (review goes straight to END), store, update,
finalize. Returns the executed trace and the terminal state, or the trace
up to the failing step and the failure description. -/
def KnowledgeWorkflow.invoke (o : Oracle) (s0 : KIState) :
    Except (List (String × KIState) × String) (List (String × KIState) × KIState) :=
  match applyStep "validate_content" KnowledgeWorkflow.validate_content [] s0 with
  | .error te => .error te
  | .ok (t1, s1) =>
    if KnowledgeWorkflow.should_process s1 = "process" then
      match applyStep "process_content" (KnowledgeWorkflow.process_content o) t1 s1 with
      | .error te => .error te
      | .ok (t2, s2) =>
        match applyStep "check_alignment" KnowledgeWorkflow.check_alignment t2 s2 with
        | .error te => .error te
        | .ok (t3, s3) =>
          match applyStep "detect_contradictions" KnowledgeWorkflow.detect_contradictions t3 s3 with
          | .error te => .error te
          | .ok (t4, s4) =>
            if KnowledgeWorkflow.should_store s4 = "store" then
              match applyStep "store_embeddings" (KnowledgeWorkflow.store_embeddings o) t4 s4 with
              | .error te => .error te
              | .ok (t5, s5) =>
                match applyStep "update_graph" (KnowledgeWorkflow.update_graph o) t5 s5 with
                | .error te => .error te
                | .ok (t6, s6) =>
                  applyStep "finalize_ingestion" (KnowledgeWorkflow.finalize_ingestion o) t6 s6
            else
              .ok (t4, s4)
    else
      .ok (t1, s1)

/-- The `initial_state` dictionary of `KnowledgeWorkflow.run`. -/
def KnowledgeWorkflow.initial_state (o : Oracle) (wid content : String)
    (metadata : List (String × String)) (source : Option String) : KIState :=
  { workflow_id := wid
    status := "running"
    current_step := "initialized"
    start_time := o.now
    end_time := none
    error := none
    content := content
    source := source
    metadata := metadata
    nodes_created := []
    edges_created := []
    embedding_generated := false
    graph_updated := false }

/-- `KnowledgeWorkflow.run`: invoke the compiled graph on the initial
envelope; any unhandled failure is caught here, and the state the wrapper
holds (the initial envelope, its last-known state) is returned marked
`status = "failed"` with the failure description and an end time. -/
def KnowledgeWorkflow.run (o : Oracle) (wid content : String)
    (metadata : List (String × String)) (source : Option String) :
    List (String × KIState) × KIState :=
  let initial := KnowledgeWorkflow.initial_state o wid content metadata source
  match KnowledgeWorkflow.invoke o initial with
  | .ok (tr, result) => (tr, result)
  | .error (tr, e) =>
    (tr, { initial with status := "failed", error := some e, end_time := some o.now })

/-- Every state an ingestion run produces: the initial envelope, each
step's output in order, and the returned state. -/
def KnowledgeWorkflow.produced (o : Oracle) (wid content : String)
    (metadata : List (String × String)) (source : Option String) : List KIState :=
  let initial := KnowledgeWorkflow.initial_state o wid content metadata source
  let r := KnowledgeWorkflow.run o wid content metadata source
  initial :: r.1.map Prod.snd ++ [r.2]

/-- `ReasoningWorkflowState` from models/state.py. Keys added during a
run (`query_analysis`, `vector_results`, `graph_results`,
`contradiction_analysis`, `reasoning_text`, `gap_analysis`) are modelled
as `Option` fields that start out `none`. -/
structure RState where
  workflow_id : String
  status : String
  current_step : String
  start_time : String
  end_time : Option String
  error : Option String
  query : String
  context : List (String × String)
  retrieved_nodes : List CombinedRecord
  reasoning_path : List String
  answer : Option String
  confidence : ℚ
  contradictions_found : List String
  query_analysis : Option String := none
  vector_results : Option (List VectorResult) := none
  graph_results : Option (List GraphResult) := none
  contradiction_analysis : Option ContradictionAnalysis := none
  reasoning_text : Option String := none
  gap_analysis : Option GapAnalysis := none
deriving Repr, DecidableEq

/-- The query-analysis prompt of `ReasoningWorkflow._analyze_query`
(collaborator-facing text; modelled as plain concatenation). -/
def ReasoningWorkflow.analysis_prompt (query : String) : String :=
  "Analyze this query and extract key information:\nQuery: " ++ query ++
  "\n\nProvide:\n1. Query type (factual, explanatory, comparative, etc.)\n" ++
  "2. Key terms and concepts\n3. Expected answer format\n" ++
  "4. Complexity level (simple, moderate, complex)"

/-- `ReasoningWorkflow._format_nodes_for_reasoning`: the first 5 nodes,
each content truncated to 200 characters. -/
def ReasoningWorkflow.format_nodes_for_reasoning (nodes : List CombinedRecord) : String :=
  String.intercalate "\n" ((nodes.take 5).map (fun node => "- " ++ pyTake node.content 200 ++ "..."))

/-- The reasoning prompt of `ReasoningWorkflow._generate_reasoning`. -/
def ReasoningWorkflow.reasoning_prompt (query : String) (nodes : List CombinedRecord) : String :=
  "Based on the query and retrieved knowledge, generate a reasoning path:\n\nQuery: " ++
  query ++ "\n\nRetrieved Knowledge:\n" ++ ReasoningWorkflow.format_nodes_for_reasoning nodes ++
  "\n\nProvide:\n1. Step-by-step reasoning process\n2. Key insights from the knowledge\n" ++
  "3. Connections between different pieces of information\n4. Confidence in the reasoning"

/-- Rendering of the gap list inside the final answer prompt (Python
interpolates the gap dictionaries via `str`; modelled structurally). -/
def gapsText (gaps : List Gap) : String :=
  String.intercalate "; " (gaps.map (fun g => g.gtype ++ ": " ++ g.description))

/-- The final answer prompt of `ReasoningWorkflow._formulate_answer`. -/
def ReasoningWorkflow.answer_prompt (query reasoning : String) (gaps : List Gap)
    (contradiction_count : Nat) : String :=
  "Formulate a comprehensive answer based on the reasoning and analysis:\n\nQuery: " ++
  query ++ "\n\nReasoning: " ++ reasoning ++ "\n\nKnowledge Gaps: " ++ gapsText gaps ++
  "\n\nContradictions Found: " ++ toString contradiction_count ++
  "\n\nProvide:\n1. Direct answer to the query\n2. Explanation with evidence\n" ++
  "3. Confidence level (high/medium/low)\n4. Any limitations or caveats"

/-- The state written by `ReasoningWorkflow._analyze_query`: the raw LLM
response text is stored verbatim. -/
def ReasoningWorkflow.analyze_state (analysis_text : String) (s : RState) : RState :=
  { s with query_analysis := some analysis_text, current_step := "query_analyzed" }

/-- `ReasoningWorkflow._analyze_query` (the workflow step). -/
def ReasoningWorkflow.analyze_query (o : Oracle) (s : RState) : Except String RState :=
  match o.llm (ReasoningWorkflow.analysis_prompt s.query) with
  | .error e => .error e
  | .ok analysis_text => .ok (ReasoningWorkflow.analyze_state analysis_text s)

/-- The state written by `ReasoningWorkflow._retrieve_knowledge`. -/
def ReasoningWorkflow.retrieve_state (vector_results : List VectorResult)
    (graph_results : List GraphResult) (s : RState) : RState :=
  { s with retrieved_nodes := ReasoningWorkflow.combine_search_results vector_results graph_results
           vector_results := some vector_results
           graph_results := some graph_results
           current_step := "knowledge_retrieved" }

/-- `ReasoningWorkflow._retrieve_knowledge`: embed the query, take the
top-10 vector hits and top-5 graph full-text hits, and merge them. -/
def ReasoningWorkflow.retrieve_knowledge (o : Oracle) (s : RState) : Except String RState :=
  match o.encode s.query with
  | .error e => .error e
  | .ok query_embedding =>
    match o.search_similar query_embedding 10 with
    | .error e => .error e
    | .ok vector_results =>
      match o.search_nodes s.query 5 with
      | .error e => .error e
      | .ok graph_results =>
        .ok (ReasoningWorkflow.retrieve_state vector_results graph_results s)

/-- The state written by `ReasoningWorkflow._check_contradictions`: the
contradiction agent is reused with the retrieved nodes as both the new
and the existing set. -/
def ReasoningWorkflow.check_state (s : RState) : RState :=
  let retrieved := s.retrieved_nodes.map CombinedRecord.toCNode
  let contradiction_result := ContradictionAgent.detect_contradictions retrieved retrieved
  { s with contradictions_found := contradiction_result.conflicting_nodes
           contradiction_analysis := some contradiction_result
           current_step := "contradictions_checked" }

/-- `ReasoningWorkflow._check_contradictions` (the workflow step). -/
def ReasoningWorkflow.check_contradictions (s : RState) : Except String RState :=
  .ok (ReasoningWorkflow.check_state s)

/-- `ReasoningWorkflow._should_continue_reasoning`: stop when more than
2 entries were flagged. -/
def ReasoningWorkflow.should_continue_reasoning (s : RState) : String :=
  if s.contradictions_found.length > 2 then "stop" else "continue"

/-- The state written by `ReasoningWorkflow._generate_reasoning`: the
narrative plus the first 3 retrieved node ids as the reasoning path. -/
def ReasoningWorkflow.generate_state (reasoning_text : String) (s : RState) : RState :=
  { s with reasoning_text := some reasoning_text
           reasoning_path := (s.retrieved_nodes.take 3).map (fun n => n.id)
           current_step := "reasoning_generated" }

/-- `ReasoningWorkflow._generate_reasoning`: ask the LLM for a reasoning
narrative and take the first 3 retrieved node ids as the reasoning path. -/
def ReasoningWorkflow.generate_reasoning (o : Oracle) (s : RState) : Except String RState :=
  match o.llm (ReasoningWorkflow.reasoning_prompt s.query s.retrieved_nodes) with
  | .error e => .error e
  | .ok reasoning_text => .ok (ReasoningWorkflow.generate_state reasoning_text s)

/-- The state written by `ReasoningWorkflow._identify_gaps`. -/
def ReasoningWorkflow.gaps_state (s : RState) : RState :=
  { s with gap_analysis := some (ResearchAgent.identify_gaps s.query
             (s.retrieved_nodes.map CombinedRecord.toCNode))
           current_step := "gaps_identified" }

/-- `ReasoningWorkflow._identify_gaps` (the workflow step). -/
def ReasoningWorkflow.identify_gaps (s : RState) : Except String RState :=
  .ok (ReasoningWorkflow.gaps_state s)

/-- The state written by `ReasoningWorkflow._formulate_answer`:
confidence 0.5 if the response mentions "low confidence", else 0.9 if it
mentions "high confidence", else 0.8. -/
def ReasoningWorkflow.answer_state (answer_text : String) (s : RState) : RState :=
  { s with answer := some answer_text
           confidence :=
             if strIn "low confidence" (pyLower answer_text) then 1/2
             else if strIn "high confidence" (pyLower answer_text) then 9/10
             else 4/5
           current_step := "answer_formulated" }

/-- `ReasoningWorkflow._formulate_answer`: ask the LLM for the final
answer with a stated confidence. -/
def ReasoningWorkflow.formulate_answer (o : Oracle) (s : RState) : Except String RState :=
  match o.llm (ReasoningWorkflow.answer_prompt s.query (s.reasoning_text.getD "")
      ((s.gap_analysis.map (fun g => g.gaps)).getD []) s.contradictions_found.length) with
  | .error e => .error e
  | .ok answer_text => .ok (ReasoningWorkflow.answer_state answer_text s)

/-- `ReasoningWorkflow._finalize_reasoning`'s updated state. -/
def ReasoningWorkflow.finalize_state (o : Oracle) (s : RState) : RState :=
  { s with status := "completed", end_time := some o.now, current_step := "completed" }

/-- `ReasoningWorkflow._finalize_reasoning`. -/
def ReasoningWorkflow.finalize_reasoning (o : Oracle) (s : RState) : Except String RState :=
  .ok (ReasoningWorkflow.finalize_state o s)

/-- The unconditional front of the reasoning graph: analyze, retrieve,
check contradictions (with trace). -/
def ReasoningWorkflow.firstSteps (o : Oracle) (s0 : RState) :
    Except (List (String × RState) × String) (List (String × RState) × RState) :=
  match applyStep "analyze_query" (ReasoningWorkflow.analyze_query o) [] s0 with
  | .error te => .error te
  | .ok (t1, s1) =>
    match applyStep "retrieve_knowledge" (ReasoningWorkflow.retrieve_knowledge o) t1 s1 with
    | .error te => .error te
    | .ok (t2, s2) =>
      applyStep "check_contradictions" ReasoningWorkflow.check_contradictions t2 s2

/-- The compiled reasoning graph (`app.ainvoke`): the unconditional
front, then branch on `_should_continue_reasoning` — "stop" goes
straight to finalize, "continue" runs generate, gaps, formulate,
finalize. -/
def ReasoningWorkflow.invoke (o : Oracle) (s0 : RState) :
    Except (List (String × RState) × String) (List (String × RState) × RState) :=
  match ReasoningWorkflow.firstSteps o s0 with
  | .error te => .error te
  | .ok (t3, s3) =>
    if ReasoningWorkflow.should_continue_reasoning s3 = "stop" then
      applyStep "finalize_reasoning" (ReasoningWorkflow.finalize_reasoning o) t3 s3
    else
      match applyStep "generate_reasoning" (ReasoningWorkflow.generate_reasoning o) t3 s3 with
      | .error te => .error te
      | .ok (t4, s4) =>
        match applyStep "identify_gaps" ReasoningWorkflow.identify_gaps t4 s4 with
        | .error te => .error te
        | .ok (t5, s5) =>
          match applyStep "formulate_answer" (ReasoningWorkflow.formulate_answer o) t5 s5 with
          | .error te => .error te
          | .ok (t6, s6) =>
            applyStep "finalize_reasoning" (ReasoningWorkflow.finalize_reasoning o) t6 s6

/-- The `initial_state` dictionary of `ReasoningWorkflow.run`. -/
def ReasoningWorkflow.initial_state (o : Oracle) (wid query : String)
    (context : List (String × String)) : RState :=
  { workflow_id := wid
    status := "running"
    current_step := "initialized"
    start_time := o.now
    end_time := none
    error := none
    query := query
    context := context
    retrieved_nodes := []
    reasoning_path := []
    answer := none
    confidence := 0
    contradictions_found := [] }

/-- `ReasoningWorkflow.run`: invoke the compiled graph; any unhandled
failure is caught here and the initial envelope (the wrapper's last-known
state) is returned marked failed. -/
def ReasoningWorkflow.run (o : Oracle) (wid query : String)
    (context : List (String × String)) : List (String × RState) × RState :=
  let initial := ReasoningWorkflow.initial_state o wid query context
  match ReasoningWorkflow.invoke o initial with
  | .ok (tr, result) => (tr, result)
  | .error (tr, e) =>
    (tr, { initial with status := "failed", error := some e, end_time := some o.now })

/-- Every state a reasoning run produces: the initial envelope, each
step's output in order, and the returned state. -/
def ReasoningWorkflow.produced (o : Oracle) (wid query : String)
    (context : List (String × String)) : List RState :=
  let initial := ReasoningWorkflow.initial_state o wid query context
  let r := ReasoningWorkflow.run o wid query context
  initial :: r.1.map Prod.snd ++ [r.2]

/-- The linear step order of the ingestion graph (branches only cut this
short, so every executed-step trace is an initial segment of it). -/
def ingestionStepOrder : List String :=
  ["validate_content", "process_content", "check_alignment", "detect_contradictions",
   "store_embeddings", "update_graph", "finalize_ingestion"]

/-- The linear step order of the reasoning graph's continue branch. -/
def reasoningStepOrder : List String :=
  ["analyze_query", "retrieve_knowledge", "check_contradictions",
   "generate_reasoning", "identify_gaps", "formulate_answer", "finalize_reasoning"]

/-- `xs` is an initial segment of `ys`. -/
def isInitSeg {α : Type} [DecidableEq α] : List α → List α → Bool
  | [], _ => true
  | _ :: _, [] => false
  | a :: as, b :: bs => a == b && isInitSeg as bs

/-- A concrete oracle whose collaborators all succeed trivially, used to
instantiate universally quantified theorems at a closed input. -/
def trivOracle : Oracle :=
  { now := "t0"
    split_text := fun _ => []
    encode := fun _ => .ok []
    llm := fun _ => .ok ""
    search_similar := fun _ _ => .ok []
    search_nodes := fun _ _ => .ok []
    store_embedding := fun _ _ _ => .ok ()
    create_knowledge_node := fun _ _ _ _ _ => .ok ()
    create_relationship := fun _ _ _ _ => .ok () }

/-- C4: `validate_content` issues exactly the "too short" flag (trimmed
length < 10) and the "too few words" flag (word count < 5); the
question-mark check only adds a suggestion; confidence is
`max(0.1, 1 − 0.2·issues)`; valid iff no issues; and short content is
invalid with confidence at most 0.8. -/
theorem validate_content_spec (s : KIState) :
    ("Content too short" ∈ (IngestionAgent.validate_content s).issues ↔
      (pyStrip s.content).length < 10)
    ∧ ("Content has too few words" ∈ (IngestionAgent.validate_content s).issues ↔
      (pyWords s.content).length < 5)
    ∧ (IngestionAgent.validate_content s).issues.length =
        ((if (pyStrip s.content).length < 10 then 1 else 0) +
         (if (pyWords s.content).length < 5 then 1 else 0))
    ∧ (("Content appears to be mostly questions - consider adding explanatory text" ∈
          (IngestionAgent.validate_content s).suggestions) ↔
        s.content.toList.count '?' > s.content.toList.count '.')
    ∧ (IngestionAgent.validate_content s).confidence =
        max (1/10) (1 - ((IngestionAgent.validate_content s).issues.length : ℚ) * (1/5))
    ∧ ((IngestionAgent.validate_content s).is_valid = true ↔
        (IngestionAgent.validate_content s).issues = [])
    ∧ ((pyStrip s.content).length < 10 →
        (IngestionAgent.validate_content s).is_valid = false
        ∧ (IngestionAgent.validate_content s).confidence ≤ 4/5) := by
  by_cases h1 : (pyStrip s.content).length < 10 <;>
    by_cases h2 : (pyWords s.content).length < 5 <;>
      by_cases h3 : s.content.toList.count '?' > s.content.toList.count '.' <;>
        simp [IngestionAgent.validate_content, h1, h2, h3] <;> norm_num

/-- Witness for C4 at the concrete content "hi?" (trimmed length 3). -/
theorem validate_content_spec_witness :
    (pyStrip "hi?").length < 10
    ∧ (IngestionAgent.validate_content
        (KnowledgeWorkflow.initial_state trivOracle "w0" "hi?" [] none)).is_valid = false
    ∧ (IngestionAgent.validate_content
        (KnowledgeWorkflow.initial_state trivOracle "w0" "hi?" [] none)).confidence ≤ 4/5 := by
  refine ⟨by decide, ?_⟩
  exact (validate_content_spec
    (KnowledgeWorkflow.initial_state trivOracle "w0" "hi?" [] none)).2.2.2.2.2.2 (by decide)

/-- The union of every retrieved node's lower-cased token set. -/
def nodeTermSet (ns : List CNode) : Finset String :=
  ns.foldl (fun acc n => acc ∪ (pyWords (pyLower n.content)).toFinset) ∅

/-- Membership in the covered-terms fold: a term is covered iff it is a
query term occurring in some node, or was already in the accumulator. -/
theorem mem_fold_union_inter (Q : Finset String) (tok : CNode → Finset String) :
    ∀ (ns : List CNode) (A : Finset String) (t : String),
      t ∈ ns.foldl (fun acc n => acc ∪ (tok n ∩ Q)) A ↔
        t ∈ A ∨ (t ∈ Q ∧ ∃ n ∈ ns, t ∈ tok n) := by
  intro ns
  induction ns with
  | nil => intro A t; simp
  | cons n rest ih =>
    intro A t
    simp only [List.foldl_cons, ih, Finset.mem_union, Finset.mem_inter, List.mem_cons]
    constructor
    · rintro ((h | ⟨h1, h2⟩) | ⟨hq, m, hm, ht⟩)
      · exact Or.inl h
      · exact Or.inr ⟨h2, n, Or.inl rfl, h1⟩
      · exact Or.inr ⟨hq, m, Or.inr hm, ht⟩
    · rintro (h | ⟨hq, m, (rfl | hm), ht⟩)
      · exact Or.inl (Or.inl h)
      · exact Or.inl (Or.inr ⟨ht, hq⟩)
      · exact Or.inr ⟨hq, m, hm, ht⟩

/-- Characterization of `coveredTermSet`. -/
theorem mem_coveredTermSet (query : String) (ns : List CNode) (t : String) :
    t ∈ coveredTermSet query ns ↔
      t ∈ queryTermSet query ∧ ∃ n ∈ ns, t ∈ (pyWords (pyLower n.content)).toFinset := by
  have h := mem_fold_union_inter (queryTermSet query)
    (fun n => (pyWords (pyLower n.content)).toFinset) ns ∅ t
  simpa [coveredTermSet] using h

/-- The covered terms are query terms. -/
theorem coveredTermSet_subset (query : String) (ns : List CNode) :
    coveredTermSet query ns ⊆ queryTermSet query := by
  intro t ht
  exact ((mem_coveredTermSet query ns t).1 ht).1

/-- C8: the coverage score of `identify_gaps` is `|covered| / |query terms|`,
special-cased to 1 for a term-less query; it is 1 when every query term
occurs in some retrieved node, 0 when none does (non-empty query), and
always lies in [0, 1]. -/
theorem identify_gaps_coverage_spec (query : String) (ns : List CNode) :
    (queryTermSet query = ∅ → (ResearchAgent.identify_gaps query ns).coverage_score = 1)
    ∧ (queryTermSet query ≠ ∅ →
        (ResearchAgent.identify_gaps query ns).coverage_score =
          ((coveredTermSet query ns).card : ℚ) / ((queryTermSet query).card : ℚ))
    ∧ (queryTermSet query ≠ ∅ →
        (∀ t ∈ queryTermSet query, ∃ n ∈ ns, t ∈ (pyWords (pyLower n.content)).toFinset) →
        (ResearchAgent.identify_gaps query ns).coverage_score = 1)
    ∧ (queryTermSet query ≠ ∅ →
        (∀ t ∈ queryTermSet query, ∀ n ∈ ns, t ∉ (pyWords (pyLower n.content)).toFinset) →
        (ResearchAgent.identify_gaps query ns).coverage_score = 0)
    ∧ 0 ≤ (ResearchAgent.identify_gaps query ns).coverage_score
    ∧ (ResearchAgent.identify_gaps query ns).coverage_score ≤ 1 := by
  have hscore : (ResearchAgent.identify_gaps query ns).coverage_score =
      if queryTermSet query ≠ ∅ then
        ((coveredTermSet query ns).card : ℚ) / ((queryTermSet query).card : ℚ)
      else 1 := by
    simp only [ResearchAgent.identify_gaps]
  refine ⟨?_, ?_, ?_, ?_, ?_, ?_⟩
  · intro h; rw [hscore, if_neg (by simp [h])]
  · intro h; rw [hscore, if_pos h]
  · intro h hall
    have hcards : coveredTermSet query ns = queryTermSet query := by
      apply Finset.Subset.antisymm (coveredTermSet_subset query ns)
      intro t ht
      exact (mem_coveredTermSet query ns t).2 ⟨ht, hall t ht⟩
    have hpos : 0 < ((queryTermSet query).card : ℚ) := by
      have hne : (queryTermSet query).Nonempty := Finset.nonempty_iff_ne_empty.2 h
      exact_mod_cast Finset.card_pos.2 hne
    rw [hscore, if_pos h, hcards]
    exact div_self (ne_of_gt hpos)
  · intro h hnone
    have hempty : coveredTermSet query ns = ∅ := by
      apply Finset.eq_empty_iff_forall_not_mem.2
      intro t ht
      obtain ⟨hq, n, hn, htok⟩ := (mem_coveredTermSet query ns t).1 ht
      exact hnone t hq n hn htok
    rw [hscore, if_pos h, hempty]
    simp
  · rw [hscore]
    by_cases h : queryTermSet query = ∅
    · rw [if_neg (by simp [h])]; norm_num
    · rw [if_pos h]; positivity
  · rw [hscore]
    by_cases h : queryTermSet query = ∅
    · rw [if_neg (by simp [h])]
    · rw [if_pos h]
      have hle : (coveredTermSet query ns).card ≤ (queryTermSet query).card :=
        Finset.card_le_card (coveredTermSet_subset query ns)
      have hpos : 0 < ((queryTermSet query).card : ℚ) := by
        have hne : (queryTermSet query).Nonempty := Finset.nonempty_iff_ne_empty.2 h
        exact_mod_cast Finset.card_pos.2 hne
      rw [div_le_one hpos]
      exact_mod_cast hle

/-- Witness for C8: the query "alpha beta" against one node containing
both terms is fully covered, against one containing neither scores 0. -/
theorem identify_gaps_coverage_spec_witness :
    queryTermSet "alpha beta" ≠ ∅
    ∧ (ResearchAgent.identify_gaps "alpha beta"
        [{ id := "n1", content := "alpha and beta facts" }]).coverage_score = 1
    ∧ (ResearchAgent.identify_gaps "alpha beta"
        [{ id := "n2", content := "nothing related" }]).coverage_score = 0 := by
  refine ⟨by decide, ?_, ?_⟩
  · exact (identify_gaps_coverage_spec "alpha beta"
      [{ id := "n1", content := "alpha and beta facts" }]).2.2.1 (by decide) (by decide)
  · exact (identify_gaps_coverage_spec "alpha beta"
      [{ id := "n2", content := "nothing related" }]).2.2.2.1 (by decide) (by decide)

/-- Severity rank following the spec's ordering low < medium < high. -/
def sevRank (s : String) : Nat :=
  if s = "low" then 1 else if s = "medium" then 2 else if s = "high" then 3 else 0

/-- Severity aggregation following the spec's words: the maximum of the
recorded severities under low < medium < high, defaulting to "low" when
there are none. (Refinement comparator for the aggregation the code
actually performs.) -/
def specSeverityMax (l : List String) : String :=
  l.foldl (fun acc s => if sevRank acc < sevRank s then s else acc) "low"

/-- `_check_contradiction` matches exactly when some fixed phrase pair
has its positive phrase in the first content and its negative phrase in
the second. -/
theorem check_contradiction_isSome (n e : CNode) :
    (ContradictionAgent.check_contradiction n e).isSome = true ↔
      ∃ pr ∈ contradiction_patterns,
        strIn pr.1 (pyLower n.content) = true ∧ strIn pr.2 (pyLower e.content) = true := by
  simp [ContradictionAgent.check_contradiction, List.find?_isSome]

/-- Any produced contradiction info has severity "high" and type
"direct_contradiction". -/
theorem check_contradiction_severity (n e : CNode) (info : ContradictionInfo)
    (h : ContradictionAgent.check_contradiction n e = some info) :
    info.severity = "high" ∧ info.ctype = "direct_contradiction" := by
  simp only [ContradictionAgent.check_contradiction, Option.map_eq_some'] at h
  obtain ⟨pr, _, hinfo⟩ := h
  rw [← hinfo]
  exact ⟨rfl, rfl⟩

/-- Folding the Python string max over an all-"high" list from "high"
stays "high". -/
theorem foldmax_high : ∀ xs : List String, (∀ x ∈ xs, x = "high") →
    xs.foldl (fun a b => if a < b then b else a) "high" = "high" := by
  intro xs
  induction xs with
  | nil => intro _; rfl
  | cons y ys ih =>
    intro h
    have hy := h y (by simp)
    subst hy
    have hys : ∀ x ∈ ys, x = "high" := fun x hx => h x (by simp [hx])
    simpa [show ¬("high" < "high") from lt_irrefl "high"] using ih hys

/-- Folding the spec's ranked max over an all-"high" list from "high"
stays "high". -/
theorem foldspec_high : ∀ xs : List String, (∀ x ∈ xs, x = "high") →
    xs.foldl (fun acc s => if sevRank acc < sevRank s then s else acc) "high" = "high" := by
  intro xs
  induction xs with
  | nil => intro _; rfl
  | cons y ys ih =>
    intro h
    have hy := h y (by simp)
    subst hy
    have hys : ∀ x ∈ ys, x = "high" := fun x hx => h x (by simp [hx])
    simpa [sevRank] using ih hys

/-- On all-"high" lists the Python string max agrees with the spec's
ranked max. -/
theorem pyMaxString_eq_specSeverityMax (l : List String) (h : ∀ x ∈ l, x = "high") :
    pyMaxString l "low" = specSeverityMax l := by
  cases l with
  | nil => rfl
  | cons x xs =>
    have hx := h x (by simp)
    subst hx
    have hxs : ∀ y ∈ xs, y = "high" := fun y hy => h y (by simp [hy])
    rw [pyMaxString, specSeverityMax]
    rw [foldmax_high xs hxs]
    simp only [List.foldl_cons]
    rw [show (if sevRank "low" < sevRank "high" then "high" else "low") = "high" from by decide]
    rw [foldspec_high xs hxs]

/-- Every recorded contradiction has severity "high" and type
"direct_contradiction". -/
theorem contradiction_records_high (ns es : List CNode) :
    ∀ c ∈ ContradictionAgent.contradiction_records ns es,
      c.severity = "high" ∧ c.ctype = "direct_contradiction" := by
  intro c hc
  simp only [ContradictionAgent.contradiction_records, List.mem_flatMap,
    List.mem_filterMap, Option.map_eq_some'] at hc
  obtain ⟨n, _, e, _, info, hinfo, hc⟩ := hc
  obtain ⟨hsev, hty⟩ := check_contradiction_severity n e info hinfo
  rw [← hc]
  exact ⟨hsev, hty⟩

/-- C5: a contradiction is recorded for a (new, existing) pair iff some
fixed phrase pair matches positively in the first and negatively in the
second; every record is a high-severity "direct_contradiction"; the
aggregate severity equals the spec's ranked maximum (default "low"); and
the ingestion branch proceeds to storage iff no contradiction was
recorded. -/
theorem detect_contradictions_spec (ns es : List CNode) :
    (∀ n e : CNode, (ContradictionAgent.check_contradiction n e).isSome = true ↔
        ∃ pr ∈ contradiction_patterns,
          strIn pr.1 (pyLower n.content) = true ∧ strIn pr.2 (pyLower e.content) = true)
    ∧ ((ContradictionAgent.detect_contradictions ns es).has_contradiction = true ↔
        ∃ n ∈ ns, ∃ e ∈ es, ∃ pr ∈ contradiction_patterns,
          strIn pr.1 (pyLower n.content) = true ∧ strIn pr.2 (pyLower e.content) = true)
    ∧ (∀ c ∈ ContradictionAgent.contradiction_records ns es,
        c.severity = "high" ∧ c.ctype = "direct_contradiction")
    ∧ (ContradictionAgent.detect_contradictions ns es).severity =
        specSeverityMax ((ContradictionAgent.contradiction_records ns es).map
          (fun c => c.severity))
    ∧ (∀ s : KIState,
        s.contradiction_result = some (ContradictionAgent.detect_contradictions ns es) →
        (KnowledgeWorkflow.should_store s = "store" ↔
          ContradictionAgent.contradiction_records ns es = [])) := by
  refine ⟨fun n e => check_contradiction_isSome n e, ?_, contradiction_records_high ns es, ?_, ?_⟩
  · simp only [ContradictionAgent.detect_contradictions, Bool.not_eq_eq_eq_not, Bool.not_true,
      List.isEmpty_eq_false_iff_exists_mem]
    constructor
    · rintro ⟨c, hc⟩
      simp only [ContradictionAgent.contradiction_records, List.mem_flatMap,
        List.mem_filterMap, Option.map_eq_some'] at hc
      obtain ⟨n, hn, e, he, info, hinfo, _⟩ := hc
      refine ⟨n, hn, e, he, ?_⟩
      rw [← check_contradiction_isSome n e]
      simp [hinfo]
    · rintro ⟨n, hn, e, he, hex⟩
      have hsome : (ContradictionAgent.check_contradiction n e).isSome = true :=
        (check_contradiction_isSome n e).2 hex
      obtain ⟨info, hinfo⟩ := Option.isSome_iff_exists.1 hsome
      refine ⟨{ node1 := n.id, node2 := e.id, ctype := info.ctype,
                description := info.description, severity := info.severity }, ?_⟩
      simp only [ContradictionAgent.contradiction_records, List.mem_flatMap, List.mem_filterMap]
      exact ⟨n, hn, e, he, by simp [hinfo]⟩
  · have hall : ∀ x ∈ (ContradictionAgent.contradiction_records ns es).map
        (fun c => c.severity), x = "high" := by
      intro x hx
      simp only [List.mem_map] at hx
      obtain ⟨c, hc, rfl⟩ := hx
      exact (contradiction_records_high ns es c hc).1
    simpa [ContradictionAgent.detect_contradictions] using
      pyMaxString_eq_specSeverityMax _ hall
  · intro s hs
    simp only [KnowledgeWorkflow.should_store, hs, ContradictionAgent.detect_contradictions]
    cases hrec : ContradictionAgent.contradiction_records ns es with
    | nil => simp [hrec]
    | cons c cs => simp [hrec]

/-- Concrete new-node list for the C5/C10 witnesses. -/
def c5nodes : List CNode := [{ id := "n1", content := "x is true" }]

/-- Concrete existing-node list for the C5 witness. -/
def c5existing : List CNode := [{ id := "e1", content := "it is not so" }]

/-- Concrete ingestion state carrying a contradiction analysis. -/
def c5state : KIState :=
  { KnowledgeWorkflow.initial_state trivOracle "w5" "plenty of words in this content" [] none with
      contradiction_result :=
        some (ContradictionAgent.detect_contradictions c5nodes c5existing) }

/-- Witness for C5: the branch predicate applied to a state carrying the
concrete analysis decides storage exactly by record emptiness. -/
theorem detect_contradictions_spec_witness :
    c5state.contradiction_result =
      some (ContradictionAgent.detect_contradictions c5nodes c5existing)
    ∧ (KnowledgeWorkflow.should_store c5state = "store" ↔
        ContradictionAgent.contradiction_records c5nodes c5existing = []) :=
  ⟨rfl, (detect_contradictions_spec c5nodes c5existing).2.2.2.2 c5state rfl⟩

/-- Extract the success value of an `Except`, with a fallback. -/
def exceptOkOr {ε α : Type} (d : α) : Except ε α → α
  | .ok a => a
  | .error _ => d

/-- Concrete reasoning state whose two retrieved nodes each contain both
"is" and "is not", so self-comparison flags all four ordered pairs. -/
def c10state : RState :=
  { ReasoningWorkflow.initial_state trivOracle "w10" "q" [] with
      retrieved_nodes :=
        [{ id := "r1", content := "it is not cold", embedding := none, metadata := []
           confidence := 1, created_at := "", updated_at := "" },
         { id := "r2", content := "it is not warm", embedding := none, metadata := []
           confidence := 1, created_at := "", updated_at := "" }] }

/-- The state produced by the contradiction-check step on `c10state`. -/
def c10checked : RState :=
  exceptOkOr (ReasoningWorkflow.initial_state trivOracle "w10" "q" [])
    (ReasoningWorkflow.check_contradictions c10state)

/-- C10: `conflicting_nodes` has one entry per detected pair and holds
only the first (new-side) node's id, so duplicate ids occur when one node
contradicts several others; the reasoning step stores that list verbatim
in `contradictions_found`, and the stop predicate thresholds its length —
i.e. it counts contradicting pairs, not distinct conflicting nodes. -/
theorem conflicting_nodes_pairs_spec (ns es : List CNode) :
    (ContradictionAgent.detect_contradictions ns es).conflicting_nodes =
      (ContradictionAgent.contradiction_records ns es).map (fun c => c.node1)
    ∧ (ContradictionAgent.detect_contradictions ns es).conflicting_nodes.length =
      (ContradictionAgent.contradiction_records ns es).length
    ∧ (ContradictionAgent.detect_contradictions
        [{ id := "n1", content := "x is true" }]
        [{ id := "e1", content := "it is not so" }, { id := "e2", content := "it is not thus" }]).conflicting_nodes = ["n1", "n1"]
    ∧ ¬ (ContradictionAgent.detect_contradictions
        [{ id := "n1", content := "x is true" }]
        [{ id := "e1", content := "it is not so" }, { id := "e2", content := "it is not thus" }]).conflicting_nodes.Nodup
    ∧ (∀ s s2 : RState, ReasoningWorkflow.check_contradictions s = .ok s2 →
        s2.contradictions_found =
          (ContradictionAgent.detect_contradictions
            (s.retrieved_nodes.map CombinedRecord.toCNode)
            (s.retrieved_nodes.map CombinedRecord.toCNode)).conflicting_nodes)
    ∧ (∀ s : RState, ReasoningWorkflow.should_continue_reasoning s =
        if 2 < s.contradictions_found.length then "stop" else "continue") := by
  refine ⟨rfl, by simp [ContradictionAgent.detect_contradictions], by decide, by decide, ?_, ?_⟩
  · intro s s2 h
    simp only [ReasoningWorkflow.check_contradictions, Except.ok.injEq] at h
    rw [← h]
    rfl
  · intro s
    rfl

/-- Witness for C10: the contradiction-check step on the concrete state
stores the pair-counting id list. -/
theorem conflicting_nodes_pairs_spec_witness :
    ReasoningWorkflow.check_contradictions c10state = .ok c10checked
    ∧ c10checked.contradictions_found =
        (ContradictionAgent.detect_contradictions
          (c10state.retrieved_nodes.map CombinedRecord.toCNode)
          (c10state.retrieved_nodes.map CombinedRecord.toCNode)).conflicting_nodes :=
  ⟨rfl, (conflicting_nodes_pairs_spec [] []).2.2.2.2.1 c10state c10checked rfl⟩

/-- Does this graph result carry the truthy node id `k`? -/
def gMatch (k : String) (g : GraphResult) : Bool :=
  match g.node.id with
  | some nid => nid ≠ "" && nid == k
  | none => false

/-- Lookup in a singleton-extended association list. -/
theorem alookup_append_single (k a : String) (v : CombinedRecord) :
    ∀ m, alookup k (m ++ [(a, v)]) =
      match alookup k m with
      | some w => some w
      | none => if a = k then some v else none := by
  intro m
  induction m with
  | nil => simp [alookup]
  | cons p rest ih =>
    by_cases hp : p.1 = k
    · simp [alookup, hp]
    · simpa [alookup, hp] using ih

/-- A key is absent from the association list iff `alookup` misses. -/
theorem alookup_eq_none_iff (k : String) :
    ∀ m : List (String × CombinedRecord), alookup k m = none ↔ k ∉ m.map Prod.fst := by
  intro m
  induction m with
  | nil => simp [alookup]
  | cons p rest ih =>
    by_cases hp : p.1 = k
    · simp [alookup, hp]
    · simp [alookup, hp, ih, Ne.symm hp]

/-- Lookup after the vector-result insertion loop: an id already present
keeps its record; a fresh id maps to the record of the first vector
result carrying it. -/
theorem alookup_insertVector (k : String) :
    ∀ (rs : List VectorResult) (m : List (String × CombinedRecord)),
      alookup k (insertVectorResults rs m) =
        match alookup k m with
        | some v => some v
        | none => (rs.find? (fun r => r.id == k)).map vecRecord := by
  intro rs
  induction rs with
  | nil =>
    intro m
    cases hm : alookup k m <;> simp [insertVectorResults, hm]
  | cons r rest ih =>
    intro m
    by_cases hrk : r.id = k
    · subst hrk
      cases hm : alookup r.id m with
      | some v =>
        simp only [insertVectorResults, hm, Option.isSome_some, if_true, ih, hm]
      | none =>
        have hfind : List.find? (fun x => x.id == r.id) (r :: rest) = some r := by
          simp [List.find?_cons_of_pos]
        simp only [insertVectorResults, hm, Option.isSome_none, Bool.false_eq_true, if_false,
          ih, alookup_append_single, hm, if_pos rfl, hfind, Option.map_some']
        simp
    · have hfind : List.find? (fun x => x.id == k) (r :: rest) =
          List.find? (fun x => x.id == k) rest := by
        rw [List.find?_cons_of_neg]
        simp [hrk]
      cases hm : alookup r.id m with
      | some v =>
        simp only [insertVectorResults, hm, Option.isSome_some, if_true, ih, hfind]
      | none =>
        simp only [insertVectorResults, hm, Option.isSome_none, Bool.false_eq_true, if_false,
          ih, alookup_append_single, hfind]
        cases alookup k m with
        | some w => rfl
        | none => simp [hrk]

/-- Lookup after the graph-result insertion loop: an id already present
keeps its record; a fresh id maps to the record of the first graph result
carrying it as a truthy node id. -/
theorem alookup_insertGraph (k : String) :
    ∀ (rs : List GraphResult) (m : List (String × CombinedRecord)),
      alookup k (insertGraphResults rs m) =
        match alookup k m with
        | some v => some v
        | none => (rs.find? (gMatch k)).map (fun g => graphRecord k g) := by
  intro rs
  induction rs with
  | nil =>
    intro m
    cases hm : alookup k m <;> simp [insertGraphResults, hm]
  | cons r rest ih =>
    intro m
    cases hid : r.node.id with
    | none =>
      have hg : gMatch k r = false := by simp [gMatch, hid]
      have hfind : List.find? (gMatch k) (r :: rest) = List.find? (gMatch k) rest := by
        rw [List.find?_cons_of_neg]; simp [hg]
      simp only [insertGraphResults, hid, ih, hfind]
    | some nid =>
      by_cases hblank : nid = ""
      · have hg : gMatch k r = false := by simp [gMatch, hid, hblank]
        have hfind : List.find? (gMatch k) (r :: rest) = List.find? (gMatch k) rest := by
          rw [List.find?_cons_of_neg]; simp [hg]
        simp only [insertGraphResults, hid, hblank, ne_eq, not_true_eq_false, false_and,
          if_false, ih, hfind]
      · by_cases hnk : nid = k
        · subst hnk
          cases hm : alookup nid m with
          | some v =>
            have hcond : ¬(nid ≠ "" ∧ (alookup nid m).isNone = true) := by
              simp [hm]
            have hg : gMatch nid r = true := by simp [gMatch, hid, hblank]
            have hfind : List.find? (gMatch nid) (r :: rest) = some r :=
              List.find?_cons_of_pos _ hg
            simp only [insertGraphResults, hid, ih, hm, hfind]
            simp [hm]
          | none =>
            have hcond : nid ≠ "" ∧ (alookup nid m).isNone = true := by
              simp [hm, hblank]
            have hg : gMatch nid r = true := by simp [gMatch, hid, hblank]
            have hfind : List.find? (gMatch nid) (r :: rest) = some r :=
              List.find?_cons_of_pos _ hg
            simp only [insertGraphResults, hid, ih, hm, hfind]
            rw [if_pos ⟨hblank, rfl⟩, alookup_append_single]
            simp [hm]
        · have hg : gMatch k r = false := by simp [gMatch, hid, hnk]
          have hfind : List.find? (gMatch k) (r :: rest) = List.find? (gMatch k) rest := by
            rw [List.find?_cons_of_neg]; simp [hg]
          by_cases hcond : nid ≠ "" ∧ (alookup nid m).isNone = true
          · simp only [insertGraphResults, hid, if_pos hcond, ih, alookup_append_single, hfind]
            cases alookup k m with
            | some w => rfl
            | none => simp [hnk]
          · simp only [insertGraphResults, hid, if_neg hcond, ih, hfind]

/-- The vector-insertion loop preserves key uniqueness. -/
theorem nodup_insertVector :
    ∀ (rs : List VectorResult) (m : List (String × CombinedRecord)),
      (m.map Prod.fst).Nodup → ((insertVectorResults rs m).map Prod.fst).Nodup := by
  intro rs
  induction rs with
  | nil => intro m h; simpa [insertVectorResults] using h
  | cons r rest ih =>
    intro m h
    simp only [insertVectorResults]
    by_cases hm : (alookup r.id m).isSome
    · rw [if_pos hm]; exact ih m h
    · rw [if_neg hm]
      apply ih
      have habs : r.id ∉ m.map Prod.fst := by
        rw [← alookup_eq_none_iff]
        exact Option.not_isSome_iff_eq_none.1 hm
      simp [List.nodup_append, h, habs]

/-- The graph-insertion loop preserves key uniqueness. -/
theorem nodup_insertGraph :
    ∀ (rs : List GraphResult) (m : List (String × CombinedRecord)),
      (m.map Prod.fst).Nodup → ((insertGraphResults rs m).map Prod.fst).Nodup := by
  intro rs
  induction rs with
  | nil => intro m h; simpa [insertGraphResults] using h
  | cons r rest ih =>
    intro m h
    cases hid : r.node.id with
    | none =>
      have hstep : insertGraphResults (r :: rest) m = insertGraphResults rest m := by
        simp [insertGraphResults, hid]
      rw [hstep]; exact ih m h
    | some nid =>
      have hstep : insertGraphResults (r :: rest) m =
          insertGraphResults rest
            (if nid ≠ "" ∧ (alookup nid m).isNone = true then
              m ++ [(nid, graphRecord nid r)] else m) := by
        simp [insertGraphResults, hid]
      rw [hstep]
      by_cases hcond : nid ≠ "" ∧ (alookup nid m).isNone = true
      · rw [if_pos hcond]
        apply ih
        have habs : nid ∉ m.map Prod.fst := by
          rw [← alookup_eq_none_iff]
          exact Option.isNone_iff_eq_none.1 hcond.2
        simp [List.nodup_append, h, habs]
      · rw [if_neg hcond]; exact ih m h

/-- C6: the merge of vector and graph results is a mapping keyed by node
id with first-writer-wins semantics — vector results are inserted first,
an id present in both keeps the vector-derived record, a later record for
a present id never overwrites it, and each record's confidence is the
originating store's relevance score. -/
theorem combine_search_results_spec (vrs : List VectorResult) (grs : List GraphResult) :
    ((combinedMap vrs grs).map Prod.fst).Nodup
    ∧ ReasoningWorkflow.combine_search_results vrs grs = (combinedMap vrs grs).map Prod.snd
    ∧ (∀ k v, vrs.find? (fun r => r.id == k) = some v →
        alookup k (combinedMap vrs grs) = some (vecRecord v))
    ∧ (∀ k g, vrs.find? (fun r => r.id == k) = none →
        grs.find? (gMatch k) = some g →
        alookup k (combinedMap vrs grs) = some (graphRecord k g))
    ∧ (∀ r, (vecRecord r).confidence = r.score)
    ∧ (∀ k g, (graphRecord k g).confidence = g.score) := by
  refine ⟨?_, rfl, ?_, ?_, fun r => rfl, fun k g => rfl⟩
  · exact nodup_insertGraph grs _ (nodup_insertVector vrs [] (by simp))
  · intro k v hfind
    unfold combinedMap
    rw [alookup_insertGraph, alookup_insertVector]
    simp [alookup, hfind]
  · intro k g hvnone hgfind
    unfold combinedMap
    rw [alookup_insertGraph, alookup_insertVector]
    simp [alookup, hvnone, hgfind]

/-- Concrete search results for the C6 witness: node id "a" appears in
both stores; the merge keeps the vector record. -/
def c6vrs : List VectorResult :=
  [{ id := "a", score := 9/10, metadata := [("content", "va")] }]

/-- Concrete graph results for the C6 witness. -/
def c6grs : List GraphResult :=
  [{ node := { id := some "a", content := some "ga", metadata := some [],
               created_at := some "", updated_at := some "" }, score := 1/10 },
   { node := { id := some "b", content := some "gb", metadata := some [],
               created_at := some "", updated_at := some "" }, score := 1/5 }]

/-- Witness for C6: id "a" (in both stores) keeps the vector record; id
"b" (graph only) gets the graph record. -/
theorem combine_search_results_spec_witness :
    c6vrs.find? (fun r => r.id == "a") = some (c6vrs.get ⟨0, by decide⟩)
    ∧ alookup "a" (combinedMap c6vrs c6grs) = some (vecRecord (c6vrs.get ⟨0, by decide⟩))
    ∧ c6vrs.find? (fun r => r.id == "b") = none
    ∧ c6grs.find? (gMatch "b") = some (c6grs.get ⟨1, by decide⟩)
    ∧ alookup "b" (combinedMap c6vrs c6grs) = some (graphRecord "b" (c6grs.get ⟨1, by decide⟩)) := by
  refine ⟨rfl, ?_, rfl, rfl, ?_⟩
  · exact (combine_search_results_spec c6vrs c6grs).2.2.1 "a" _ rfl
  · exact (combine_search_results_spec c6vrs c6grs).2.2.2.1 "b" _ rfl rfl

/-- Allowed status transition between consecutive produced states:
unchanged, or running to completed/failed. -/
def statusStepOkB (a b : String) : Bool :=
  a == b || (a == "running" && (b == "completed" || b == "failed"))

/-- Pairwise check of `statusStepOkB` along a status list. -/
def chainB : List String → Bool
  | [] => true
  | [_] => true
  | a :: b :: rest => statusStepOkB a b && chainB (b :: rest)

/-- The §3 invariant: `end_time` is set iff `status` differs from
"running". -/
def endInvB (status : String) (end_time : Option String) : Bool :=
  end_time.isSome == (status != "running")

/-- With no existing nodes the contradiction agent records nothing. -/
theorem contradiction_records_nil (ns : List CNode) :
    ContradictionAgent.contradiction_records ns [] = [] := by
  simp [ContradictionAgent.contradiction_records]

/-- The ingestion branch predicate after the detect step always chooses
storage, because the stubbed existing graph is empty. -/
theorem should_store_after_detect (s : KIState) :
    KnowledgeWorkflow.should_store
      { s with
          contradiction_result :=
            some (ContradictionAgent.detect_contradictions
              (s.nodes_created.map (fun i => CNode.mk i i)) []),
          current_step := "contradictions_checked" } = "store" := by
  simp [KnowledgeWorkflow.should_store, ContradictionAgent.detect_contradictions,
    contradiction_records_nil]


@[simp] theorem initial_state_status (o wid content metadata source) :
    (KnowledgeWorkflow.initial_state o wid content metadata source).status = "running" := rfl

@[simp] theorem initial_state_end_time (o wid content metadata source) :
    (KnowledgeWorkflow.initial_state o wid content metadata source).end_time = none := rfl

@[simp] theorem initial_state_embedding_generated (o wid content metadata source) :
    (KnowledgeWorkflow.initial_state o wid content metadata source).embedding_generated = false := rfl

@[simp] theorem validate_state_status (s) : (KnowledgeWorkflow.validate_state s).status = s.status := rfl

@[simp] theorem validate_state_end_time (s) : (KnowledgeWorkflow.validate_state s).end_time = s.end_time := rfl

@[simp] theorem validate_state_embedding_generated (s) :
    (KnowledgeWorkflow.validate_state s).embedding_generated = s.embedding_generated := rfl

@[simp] theorem process_state_status (r s) : (KnowledgeWorkflow.process_state r s).status = s.status := rfl

@[simp] theorem process_state_end_time (r s) : (KnowledgeWorkflow.process_state r s).end_time = s.end_time := rfl

@[simp] theorem process_state_embedding_generated (r s) :
    (KnowledgeWorkflow.process_state r s).embedding_generated = s.embedding_generated := rfl

@[simp] theorem align_state_status (s) : (KnowledgeWorkflow.align_state s).status = s.status := rfl

@[simp] theorem align_state_end_time (s) : (KnowledgeWorkflow.align_state s).end_time = s.end_time := rfl

@[simp] theorem align_state_embedding_generated (s) :
    (KnowledgeWorkflow.align_state s).embedding_generated = s.embedding_generated := rfl

@[simp] theorem detect_state_status (s) : (KnowledgeWorkflow.detect_state s).status = s.status := rfl

@[simp] theorem detect_state_end_time (s) : (KnowledgeWorkflow.detect_state s).end_time = s.end_time := rfl

@[simp] theorem detect_state_embedding_generated (s) :
    (KnowledgeWorkflow.detect_state s).embedding_generated = s.embedding_generated := rfl

@[simp] theorem store_state_status (s) : (KnowledgeWorkflow.store_state s).status = s.status := rfl

@[simp] theorem store_state_end_time (s) : (KnowledgeWorkflow.store_state s).end_time = s.end_time := rfl

@[simp] theorem store_state_embedding_generated (s) :
    (KnowledgeWorkflow.store_state s).embedding_generated = s.embedding_generated := rfl

@[simp] theorem update_state_status (rels s) : (KnowledgeWorkflow.update_state rels s).status = s.status := rfl

@[simp] theorem update_state_end_time (rels s) :
    (KnowledgeWorkflow.update_state rels s).end_time = s.end_time := rfl

@[simp] theorem update_state_embedding_generated (rels s) :
    (KnowledgeWorkflow.update_state rels s).embedding_generated = s.embedding_generated := rfl

@[simp] theorem kw_finalize_state_status (o s) :
    (KnowledgeWorkflow.finalize_state o s).status = "completed" := rfl

@[simp] theorem kw_finalize_state_end_time (o s) :
    (KnowledgeWorkflow.finalize_state o s).end_time = some o.now := rfl

@[simp] theorem kw_finalize_state_embedding_generated (o s) :
    (KnowledgeWorkflow.finalize_state o s).embedding_generated = s.embedding_generated := rfl

@[simp] theorem r_initial_state_status (o wid q ctx) :
    (ReasoningWorkflow.initial_state o wid q ctx).status = "running" := rfl

@[simp] theorem r_initial_state_end_time (o wid q ctx) :
    (ReasoningWorkflow.initial_state o wid q ctx).end_time = none := rfl

@[simp] theorem r_initial_state_answer (o wid q ctx) :
    (ReasoningWorkflow.initial_state o wid q ctx).answer = none := rfl

@[simp] theorem analyze_state_status (t s) : (ReasoningWorkflow.analyze_state t s).status = s.status := rfl

@[simp] theorem analyze_state_end_time (t s) :
    (ReasoningWorkflow.analyze_state t s).end_time = s.end_time := rfl

@[simp] theorem analyze_state_answer (t s) : (ReasoningWorkflow.analyze_state t s).answer = s.answer := rfl

@[simp] theorem retrieve_state_status (v g s) :
    (ReasoningWorkflow.retrieve_state v g s).status = s.status := rfl

@[simp] theorem retrieve_state_end_time (v g s) :
    (ReasoningWorkflow.retrieve_state v g s).end_time = s.end_time := rfl

@[simp] theorem retrieve_state_answer (v g s) :
    (ReasoningWorkflow.retrieve_state v g s).answer = s.answer := rfl

@[simp] theorem check_state_status (s) : (ReasoningWorkflow.check_state s).status = s.status := rfl

@[simp] theorem check_state_end_time (s) : (ReasoningWorkflow.check_state s).end_time = s.end_time := rfl

@[simp] theorem check_state_answer (s) : (ReasoningWorkflow.check_state s).answer = s.answer := rfl

@[simp] theorem generate_state_status (t s) :
    (ReasoningWorkflow.generate_state t s).status = s.status := rfl

@[simp] theorem generate_state_end_time (t s) :
    (ReasoningWorkflow.generate_state t s).end_time = s.end_time := rfl

@[simp] theorem gaps_state_status (s) : (ReasoningWorkflow.gaps_state s).status = s.status := rfl

@[simp] theorem gaps_state_end_time (s) : (ReasoningWorkflow.gaps_state s).end_time = s.end_time := rfl

@[simp] theorem answer_state_status (t s) : (ReasoningWorkflow.answer_state t s).status = s.status := rfl

@[simp] theorem answer_state_end_time (t s) :
    (ReasoningWorkflow.answer_state t s).end_time = s.end_time := rfl

@[simp] theorem r_finalize_state_status (o s) :
    (ReasoningWorkflow.finalize_state o s).status = "completed" := rfl

@[simp] theorem r_finalize_state_end_time (o s) :
    (ReasoningWorkflow.finalize_state o s).end_time = some o.now := rfl

@[simp] theorem r_finalize_state_answer (o s) :
    (ReasoningWorkflow.finalize_state o s).answer = s.answer := rfl

@[simp] theorem validate_state_nodes_created (s) :
    (KnowledgeWorkflow.validate_state s).nodes_created = s.nodes_created := rfl

@[simp] theorem process_state_nodes_created (r s) :
    (KnowledgeWorkflow.process_state r s).nodes_created = r.nodes := rfl

@[simp] theorem align_state_nodes_created (s) :
    (KnowledgeWorkflow.align_state s).nodes_created = s.nodes_created := rfl

@[simp] theorem detect_state_nodes_created (s) :
    (KnowledgeWorkflow.detect_state s).nodes_created = s.nodes_created := rfl

@[simp] theorem store_state_nodes_created (s) :
    (KnowledgeWorkflow.store_state s).nodes_created = s.nodes_created := rfl

@[simp] theorem process_state_embeddings_data (r s) :
    (KnowledgeWorkflow.process_state r s).embeddings_data = some r.embeddings := rfl

@[simp] theorem align_state_embeddings_data (s) :
    (KnowledgeWorkflow.align_state s).embeddings_data = s.embeddings_data := rfl

@[simp] theorem detect_state_embeddings_data (s) :
    (KnowledgeWorkflow.detect_state s).embeddings_data = s.embeddings_data := rfl

@[simp] theorem align_state_alignment_result (s) :
    (KnowledgeWorkflow.align_state s).alignment_result =
      some (AlignmentAgent.analyze_alignment s.nodes_created) := rfl

@[simp] theorem detect_state_alignment_result (s) :
    (KnowledgeWorkflow.detect_state s).alignment_result = s.alignment_result := rfl

@[simp] theorem store_state_alignment_result (s) :
    (KnowledgeWorkflow.store_state s).alignment_result = s.alignment_result := rfl

@[simp] theorem analyze_alignment_new_relationships (nodes) :
    (AlignmentAgent.analyze_alignment nodes).new_relationships = [] := rfl

@[simp] theorem pure_except {α : Type} (a : α) : (pure a : Except String α) = .ok a := rfl

@[simp] theorem forM_nil_rel (f : NewRelationship → Except String Unit) :
    ([] : List NewRelationship).forM f = .ok () := rfl

/-- Restatement of the storage branch over the detect-step state: with
the stubbed empty existing graph the predicate always chooses storage. -/
theorem should_store_detect_state (s : KIState) :
    KnowledgeWorkflow.should_store (KnowledgeWorkflow.detect_state s) = "store" := by
  simp [KnowledgeWorkflow.should_store, KnowledgeWorkflow.detect_state,
    ContradictionAgent.detect_contradictions, contradiction_records_nil]

/-- The executed trace on the ingestion happy path for agent result `r`. -/
def kwFullTrace (o : Oracle) (s0 : KIState) (r : ProcessResult) : List (String × KIState) :=
  [("validate_content", KnowledgeWorkflow.validate_state s0),
   ("process_content", KnowledgeWorkflow.process_state r (KnowledgeWorkflow.validate_state s0)),
   ("check_alignment", KnowledgeWorkflow.align_state
     (KnowledgeWorkflow.process_state r (KnowledgeWorkflow.validate_state s0))),
   ("detect_contradictions", KnowledgeWorkflow.detect_state (KnowledgeWorkflow.align_state
     (KnowledgeWorkflow.process_state r (KnowledgeWorkflow.validate_state s0)))),
   ("store_embeddings", KnowledgeWorkflow.store_state (KnowledgeWorkflow.detect_state
     (KnowledgeWorkflow.align_state
       (KnowledgeWorkflow.process_state r (KnowledgeWorkflow.validate_state s0))))),
   ("update_graph", KnowledgeWorkflow.update_state [] (KnowledgeWorkflow.store_state
     (KnowledgeWorkflow.detect_state (KnowledgeWorkflow.align_state
       (KnowledgeWorkflow.process_state r (KnowledgeWorkflow.validate_state s0)))))),
   ("finalize_ingestion", KnowledgeWorkflow.finalize_state o (KnowledgeWorkflow.update_state []
     (KnowledgeWorkflow.store_state (KnowledgeWorkflow.detect_state
       (KnowledgeWorkflow.align_state
         (KnowledgeWorkflow.process_state r (KnowledgeWorkflow.validate_state s0)))))))]

/-- Exhaustive shape of an ingestion graph invocation: rejected at
validation; failed while embedding chunks; failed while storing
embeddings; failed in `update_graph` on the id-string subscripts (any
chunk was produced); or completed through `finalize_ingestion` (no chunk
produced). -/
theorem knowledge_invoke_shape (o : Oracle) (s0 : KIState) :
    (KnowledgeWorkflow.should_process (KnowledgeWorkflow.validate_state s0) = "reject"
      ∧ KnowledgeWorkflow.invoke o s0 =
          .ok ([("validate_content", KnowledgeWorkflow.validate_state s0)],
            KnowledgeWorkflow.validate_state s0))
    ∨ (KnowledgeWorkflow.should_process (KnowledgeWorkflow.validate_state s0) = "process"
      ∧ ((∃ e, IngestionAgent.process_content o (KnowledgeWorkflow.validate_state s0) = .error e
            ∧ KnowledgeWorkflow.invoke o s0 =
                .error ([("validate_content", KnowledgeWorkflow.validate_state s0)], e))
        ∨ (∃ r, IngestionAgent.process_content o (KnowledgeWorkflow.validate_state s0) = .ok r
            ∧ ((∃ e, r.embeddings.forM
                  (fun x => o.store_embedding x.1 x.2.1 x.2.2.metadata) = .error e
                ∧ KnowledgeWorkflow.invoke o s0 = .error ((kwFullTrace o s0 r).take 4, e))
              ∨ (r.embeddings.forM
                    (fun x => o.store_embedding x.1 x.2.1 x.2.2.metadata) = .ok ()
                ∧ ((r.nodes ≠ []
                    ∧ KnowledgeWorkflow.invoke o s0 =
                        .error ((kwFullTrace o s0 r).take 5,
                          "TypeError: string indices must be integers"))
                  ∨ (r.nodes = []
                    ∧ KnowledgeWorkflow.invoke o s0 =
                        .ok (kwFullTrace o s0 r,
                          KnowledgeWorkflow.finalize_state o (KnowledgeWorkflow.update_state []
                            (KnowledgeWorkflow.store_state (KnowledgeWorkflow.detect_state
                              (KnowledgeWorkflow.align_state (KnowledgeWorkflow.process_state r
                                (KnowledgeWorkflow.validate_state s0)))))))))))))) := by
  by_cases hsp : KnowledgeWorkflow.should_process (KnowledgeWorkflow.validate_state s0) = "process"
  · right
    refine ⟨hsp, ?_⟩
    cases hp : IngestionAgent.process_content o (KnowledgeWorkflow.validate_state s0) with
    | error e =>
      left
      refine ⟨e, rfl, ?_⟩
      unfold KnowledgeWorkflow.invoke
      simp [applyStep, KnowledgeWorkflow.validate_content, hsp,
        KnowledgeWorkflow.process_content, hp]
    | ok r =>
      right
      refine ⟨r, rfl, ?_⟩
      cases hst : r.embeddings.forM (fun x => o.store_embedding x.1 x.2.1 x.2.2.metadata) with
      | error e =>
        left
        refine ⟨e, rfl, ?_⟩
        unfold KnowledgeWorkflow.invoke
        simp [applyStep, KnowledgeWorkflow.validate_content, hsp,
          KnowledgeWorkflow.process_content, hp, KnowledgeWorkflow.check_alignment,
          KnowledgeWorkflow.detect_contradictions, should_store_detect_state,
          KnowledgeWorkflow.store_embeddings, hst, kwFullTrace]
      | ok u =>
        right
        cases u
        refine ⟨by simp [hst], ?_⟩
        cases hn : r.nodes with
        | cons a l =>
          left
          refine ⟨by simp [hn], ?_⟩
          unfold KnowledgeWorkflow.invoke
          simp [applyStep, KnowledgeWorkflow.validate_content, hsp,
            KnowledgeWorkflow.process_content, hp, KnowledgeWorkflow.check_alignment,
            KnowledgeWorkflow.detect_contradictions, should_store_detect_state,
            KnowledgeWorkflow.store_embeddings, hst, KnowledgeWorkflow.update_graph, hn,
            kwFullTrace]
        | nil =>
          right
          refine ⟨rfl, ?_⟩
          unfold KnowledgeWorkflow.invoke
          simp [applyStep, KnowledgeWorkflow.validate_content, hsp,
            KnowledgeWorkflow.process_content, hp, KnowledgeWorkflow.check_alignment,
            KnowledgeWorkflow.detect_contradictions, should_store_detect_state,
            KnowledgeWorkflow.store_embeddings, hst, KnowledgeWorkflow.update_graph, hn,
            KnowledgeWorkflow.finalize_ingestion, kwFullTrace]
  · left
    have hsp2 : KnowledgeWorkflow.should_process (KnowledgeWorkflow.validate_state s0) = "reject" := by
      by_cases hv : (IngestionAgent.validate_content s0).is_valid = true
      · exact absurd (by simp [KnowledgeWorkflow.should_process,
          KnowledgeWorkflow.validate_state, hv]) hsp
      · simp [KnowledgeWorkflow.should_process, KnowledgeWorkflow.validate_state, hv]
    refine ⟨hsp2, ?_⟩
    unfold KnowledgeWorkflow.invoke
    simp [applyStep, KnowledgeWorkflow.validate_content, hsp]

/-- Inversion: a successful analyze step yields the analyze-state for
some LLM response. -/
theorem analyze_query_ok {o : Oracle} {s s1 : RState}
    (h : ReasoningWorkflow.analyze_query o s = .ok s1) :
    ∃ t, o.llm (ReasoningWorkflow.analysis_prompt s.query) = .ok t
      ∧ s1 = ReasoningWorkflow.analyze_state t s := by
  unfold ReasoningWorkflow.analyze_query at h
  cases hl : o.llm (ReasoningWorkflow.analysis_prompt s.query) with
  | error e => rw [hl] at h; cases h
  | ok t => rw [hl] at h; cases h; exact ⟨t, rfl, rfl⟩

/-- Inversion: a successful retrieve step yields the retrieve-state for
some pair of store result lists. -/
theorem retrieve_knowledge_ok {o : Oracle} {s s2 : RState}
    (h : ReasoningWorkflow.retrieve_knowledge o s = .ok s2) :
    ∃ vrs grs, s2 = ReasoningWorkflow.retrieve_state vrs grs s := by
  unfold ReasoningWorkflow.retrieve_knowledge at h
  cases he : o.encode s.query with
  | error e => rw [he] at h; cases h
  | ok emb =>
    rw [he] at h
    dsimp only at h
    cases hv : o.search_similar emb 10 with
    | error e => rw [hv] at h; cases h
    | ok vrs =>
      rw [hv] at h
      dsimp only at h
      cases hg : o.search_nodes s.query 5 with
      | error e => rw [hg] at h; cases h
      | ok grs => rw [hg] at h; cases h; exact ⟨vrs, grs, rfl⟩

/-- Inversion: a successful generate step yields the generate-state for
some LLM response. -/
theorem generate_reasoning_ok {o : Oracle} {s s2 : RState}
    (h : ReasoningWorkflow.generate_reasoning o s = .ok s2) :
    ∃ t, s2 = ReasoningWorkflow.generate_state t s := by
  unfold ReasoningWorkflow.generate_reasoning at h
  cases hl : o.llm (ReasoningWorkflow.reasoning_prompt s.query s.retrieved_nodes) with
  | error e => rw [hl] at h; cases h
  | ok t => rw [hl] at h; cases h; exact ⟨t, rfl⟩

/-- Inversion: a successful formulate step yields the answer-state for
some LLM response. -/
theorem formulate_answer_ok {o : Oracle} {s s2 : RState}
    (h : ReasoningWorkflow.formulate_answer o s = .ok s2) :
    ∃ t, s2 = ReasoningWorkflow.answer_state t s := by
  unfold ReasoningWorkflow.formulate_answer at h
  cases hl : o.llm (ReasoningWorkflow.answer_prompt s.query (s.reasoning_text.getD "")
      ((s.gap_analysis.map (fun g => g.gaps)).getD []) s.contradictions_found.length) with
  | error e => rw [hl] at h; cases h
  | ok t => rw [hl] at h; cases h; exact ⟨t, rfl⟩

/-- The executed trace on the reasoning stop path. -/
def rwTraceStop (o : Oracle) (s0 : RState) (t1 : String) (vrs : List VectorResult)
    (grs : List GraphResult) : List (String × RState) :=
  [("analyze_query", ReasoningWorkflow.analyze_state t1 s0),
   ("retrieve_knowledge", ReasoningWorkflow.retrieve_state vrs grs
     (ReasoningWorkflow.analyze_state t1 s0)),
   ("check_contradictions", ReasoningWorkflow.check_state (ReasoningWorkflow.retrieve_state vrs grs
     (ReasoningWorkflow.analyze_state t1 s0))),
   ("finalize_reasoning", ReasoningWorkflow.finalize_state o
     (ReasoningWorkflow.check_state (ReasoningWorkflow.retrieve_state vrs grs
       (ReasoningWorkflow.analyze_state t1 s0))))]

/-- The executed trace on the reasoning happy path. -/
def rwTraceFull (o : Oracle) (s0 : RState) (t1 : String) (vrs : List VectorResult)
    (grs : List GraphResult) (t2 t3 : String) : List (String × RState) :=
  [("analyze_query", ReasoningWorkflow.analyze_state t1 s0),
   ("retrieve_knowledge", ReasoningWorkflow.retrieve_state vrs grs
     (ReasoningWorkflow.analyze_state t1 s0)),
   ("check_contradictions", ReasoningWorkflow.check_state (ReasoningWorkflow.retrieve_state vrs grs
     (ReasoningWorkflow.analyze_state t1 s0))),
   ("generate_reasoning", ReasoningWorkflow.generate_state t2
     (ReasoningWorkflow.check_state (ReasoningWorkflow.retrieve_state vrs grs
       (ReasoningWorkflow.analyze_state t1 s0)))),
   ("identify_gaps", ReasoningWorkflow.gaps_state (ReasoningWorkflow.generate_state t2
     (ReasoningWorkflow.check_state (ReasoningWorkflow.retrieve_state vrs grs
       (ReasoningWorkflow.analyze_state t1 s0))))),
   ("formulate_answer", ReasoningWorkflow.answer_state t3
     (ReasoningWorkflow.gaps_state (ReasoningWorkflow.generate_state t2
       (ReasoningWorkflow.check_state (ReasoningWorkflow.retrieve_state vrs grs
         (ReasoningWorkflow.analyze_state t1 s0)))))),
   ("finalize_reasoning", ReasoningWorkflow.finalize_state o
     (ReasoningWorkflow.answer_state t3 (ReasoningWorkflow.gaps_state
       (ReasoningWorkflow.generate_state t2 (ReasoningWorkflow.check_state
         (ReasoningWorkflow.retrieve_state vrs grs
           (ReasoningWorkflow.analyze_state t1 s0)))))))]

/-- Exhaustive shape of a reasoning graph invocation: failed in analyze;
failed in retrieve; stopped early on high contradiction volume (straight
to finalize); failed in generate or formulate; or completed the full
path. -/
theorem reasoning_invoke_shape (o : Oracle) (s0 : RState) :
    (∃ e, ReasoningWorkflow.invoke o s0 = .error ([], e))
    ∨ (∃ t1, o.llm (ReasoningWorkflow.analysis_prompt s0.query) = .ok t1
      ∧ ((∃ e, ReasoningWorkflow.invoke o s0 =
            .error ([("analyze_query", ReasoningWorkflow.analyze_state t1 s0)], e))
        ∨ (∃ vrs grs,
            ReasoningWorkflow.retrieve_knowledge o (ReasoningWorkflow.analyze_state t1 s0) =
              .ok (ReasoningWorkflow.retrieve_state vrs grs
                (ReasoningWorkflow.analyze_state t1 s0))
            ∧ ((2 < (ReasoningWorkflow.check_state (ReasoningWorkflow.retrieve_state vrs grs
                  (ReasoningWorkflow.analyze_state t1 s0))).contradictions_found.length
                ∧ ReasoningWorkflow.invoke o s0 = .ok (rwTraceStop o s0 t1 vrs grs,
                    ReasoningWorkflow.finalize_state o (ReasoningWorkflow.check_state
                      (ReasoningWorkflow.retrieve_state vrs grs
                        (ReasoningWorkflow.analyze_state t1 s0)))))
              ∨ (¬ 2 < (ReasoningWorkflow.check_state (ReasoningWorkflow.retrieve_state vrs grs
                    (ReasoningWorkflow.analyze_state t1 s0))).contradictions_found.length
                ∧ ((∃ e, ReasoningWorkflow.invoke o s0 =
                      .error ((rwTraceStop o s0 t1 vrs grs).take 3, e))
                  ∨ (∃ t2, ((∃ e, ReasoningWorkflow.invoke o s0 =
                        .error ((rwTraceFull o s0 t1 vrs grs t2 "x").take 5, e))
                    ∨ (∃ t3, ReasoningWorkflow.invoke o s0 =
                        .ok (rwTraceFull o s0 t1 vrs grs t2 t3,
                          ReasoningWorkflow.finalize_state o (ReasoningWorkflow.answer_state t3
                            (ReasoningWorkflow.gaps_state (ReasoningWorkflow.generate_state t2
                              (ReasoningWorkflow.check_state (ReasoningWorkflow.retrieve_state vrs
                                grs (ReasoningWorkflow.analyze_state t1 s0)))))))))))))))) := by
  cases ha : ReasoningWorkflow.analyze_query o s0 with
  | error e =>
    left
    refine ⟨e, ?_⟩
    unfold ReasoningWorkflow.invoke ReasoningWorkflow.firstSteps
    simp [applyStep, ha]
  | ok s1 =>
    right
    obtain ⟨t1, hl1, hs1⟩ := analyze_query_ok ha
    subst hs1
    refine ⟨t1, hl1, ?_⟩
    cases hr : ReasoningWorkflow.retrieve_knowledge o (ReasoningWorkflow.analyze_state t1 s0) with
    | error e =>
      left
      refine ⟨e, ?_⟩
      unfold ReasoningWorkflow.invoke ReasoningWorkflow.firstSteps
      simp [applyStep, ha, hr]
    | ok s2 =>
      right
      obtain ⟨vrs, grs, hs2⟩ := retrieve_knowledge_ok hr
      subst hs2
      refine ⟨vrs, grs, rfl, ?_⟩
      by_cases hc : 2 < (ReasoningWorkflow.check_state (ReasoningWorkflow.retrieve_state vrs grs
          (ReasoningWorkflow.analyze_state t1 s0))).contradictions_found.length
      · left
        refine ⟨hc, ?_⟩
        unfold ReasoningWorkflow.invoke ReasoningWorkflow.firstSteps
        simp [applyStep, ha, hr, ReasoningWorkflow.check_contradictions,
          ReasoningWorkflow.finalize_reasoning, ReasoningWorkflow.should_continue_reasoning,
          hc, rwTraceStop]
      · right
        refine ⟨hc, ?_⟩
        cases hgen : ReasoningWorkflow.generate_reasoning o (ReasoningWorkflow.check_state
            (ReasoningWorkflow.retrieve_state vrs grs
              (ReasoningWorkflow.analyze_state t1 s0))) with
        | error e =>
          left
          refine ⟨e, ?_⟩
          unfold ReasoningWorkflow.invoke ReasoningWorkflow.firstSteps
          simp [applyStep, ha, hr, ReasoningWorkflow.check_contradictions,
            ReasoningWorkflow.should_continue_reasoning, hc, hgen, rwTraceStop]
        | ok s4 =>
          right
          obtain ⟨t2, hs4⟩ := generate_reasoning_ok hgen
          subst hs4
          refine ⟨t2, ?_⟩
          cases hfa : ReasoningWorkflow.formulate_answer o (ReasoningWorkflow.gaps_state
              (ReasoningWorkflow.generate_state t2 (ReasoningWorkflow.check_state
                (ReasoningWorkflow.retrieve_state vrs grs
                  (ReasoningWorkflow.analyze_state t1 s0))))) with
          | error e =>
            left
            refine ⟨e, ?_⟩
            unfold ReasoningWorkflow.invoke ReasoningWorkflow.firstSteps
            simp [applyStep, ha, hr, ReasoningWorkflow.check_contradictions,
              ReasoningWorkflow.should_continue_reasoning, hc, hgen,
              ReasoningWorkflow.identify_gaps, hfa, rwTraceFull]
          | ok s6 =>
            right
            obtain ⟨t3, hs6⟩ := formulate_answer_ok hfa
            subst hs6
            refine ⟨t3, ?_⟩
            unfold ReasoningWorkflow.invoke ReasoningWorkflow.firstSteps
            simp [applyStep, ha, hr, ReasoningWorkflow.check_contradictions,
              ReasoningWorkflow.should_continue_reasoning, hc, hgen,
              ReasoningWorkflow.identify_gaps, hfa,
              ReasoningWorkflow.finalize_reasoning, rwTraceFull]

/-- Rewriting an ok invocation through the run wrapper. -/
theorem kw_run_of_ok {o : Oracle} {wid content : String} {metadata : List (String × String)}
    {source : Option String} {tr : List (String × KIState)} {out : KIState}
    (h : KnowledgeWorkflow.invoke o
      (KnowledgeWorkflow.initial_state o wid content metadata source) = .ok (tr, out)) :
    KnowledgeWorkflow.run o wid content metadata source = (tr, out) := by
  unfold KnowledgeWorkflow.run
  dsimp only
  rw [h]

/-- Rewriting a failed invocation through the run wrapper: the initial
envelope comes back marked failed. -/
theorem kw_run_of_error {o : Oracle} {wid content : String} {metadata : List (String × String)}
    {source : Option String} {tr : List (String × KIState)} {e : String}
    (h : KnowledgeWorkflow.invoke o
      (KnowledgeWorkflow.initial_state o wid content metadata source) = .error (tr, e)) :
    KnowledgeWorkflow.run o wid content metadata source =
      (tr, { KnowledgeWorkflow.initial_state o wid content metadata source with
               status := "failed", error := some e, end_time := some o.now }) := by
  unfold KnowledgeWorkflow.run
  dsimp only
  rw [h]

/-- Rewriting an ok invocation through the reasoning run wrapper. -/
theorem rw_run_of_ok {o : Oracle} {wid q : String} {ctx : List (String × String)}
    {tr : List (String × RState)} {out : RState}
    (h : ReasoningWorkflow.invoke o (ReasoningWorkflow.initial_state o wid q ctx) = .ok (tr, out)) :
    ReasoningWorkflow.run o wid q ctx = (tr, out) := by
  unfold ReasoningWorkflow.run
  dsimp only
  rw [h]

/-- Rewriting a failed invocation through the reasoning run wrapper. -/
theorem rw_run_of_error {o : Oracle} {wid q : String} {ctx : List (String × String)}
    {tr : List (String × RState)} {e : String}
    (h : ReasoningWorkflow.invoke o (ReasoningWorkflow.initial_state o wid q ctx) =
      .error (tr, e)) :
    ReasoningWorkflow.run o wid q ctx =
      (tr, { ReasoningWorkflow.initial_state o wid q ctx with
               status := "failed", error := some e, end_time := some o.now }) := by
  unfold ReasoningWorkflow.run
  dsimp only
  rw [h]

/-- C2: in every state either pipeline produces (initial, each step's
output, and the returned state) the status only ever moves
running→completed or running→failed and is never reversed, and end_time
is set exactly when status differs from running. -/
theorem status_endtime_invariant (o : Oracle) (wid content q : String)
    (metadata ctx : List (String × String)) (source : Option String) :
    (chainB ((KnowledgeWorkflow.produced o wid content metadata source).map
        (fun s => s.status)) = true
      ∧ (KnowledgeWorkflow.produced o wid content metadata source).all
          (fun s => endInvB s.status s.end_time) = true)
    ∧ (chainB ((ReasoningWorkflow.produced o wid q ctx).map (fun s => s.status)) = true
      ∧ (ReasoningWorkflow.produced o wid q ctx).all
          (fun s => endInvB s.status s.end_time) = true) := by
  constructor
  · rcases knowledge_invoke_shape o (KnowledgeWorkflow.initial_state o wid content metadata source)
      with ⟨hsp, hinv⟩ | ⟨hsp, ⟨e, hp, hinv⟩ | ⟨r, hp, ⟨e, hst, hinv⟩ |
        ⟨hst, ⟨hn, hinv⟩ | ⟨hn, hinv⟩⟩⟩⟩
    · rw [KnowledgeWorkflow.produced, kw_run_of_ok hinv]
      simp [chainB, statusStepOkB, endInvB]
    · rw [KnowledgeWorkflow.produced, kw_run_of_error hinv]
      simp [chainB, statusStepOkB, endInvB]
    · rw [KnowledgeWorkflow.produced, kw_run_of_error hinv]
      simp [kwFullTrace, chainB, statusStepOkB, endInvB]
    · rw [KnowledgeWorkflow.produced, kw_run_of_error hinv]
      simp [kwFullTrace, chainB, statusStepOkB, endInvB]
    · rw [KnowledgeWorkflow.produced, kw_run_of_ok hinv]
      simp [kwFullTrace, chainB, statusStepOkB, endInvB]
  · rcases reasoning_invoke_shape o (ReasoningWorkflow.initial_state o wid q ctx)
      with ⟨e, hinv⟩ | ⟨t1, hl1, ⟨e, hinv⟩ | ⟨vrs, grs, hr, ⟨hc, hinv⟩ |
        ⟨hc, ⟨e, hinv⟩ | ⟨t2, ⟨e, hinv⟩ | ⟨t3, hinv⟩⟩⟩⟩⟩
    · rw [ReasoningWorkflow.produced, rw_run_of_error hinv]
      simp [chainB, statusStepOkB, endInvB]
    · rw [ReasoningWorkflow.produced, rw_run_of_error hinv]
      simp [chainB, statusStepOkB, endInvB]
    · rw [ReasoningWorkflow.produced, rw_run_of_ok hinv]
      simp [rwTraceStop, chainB, statusStepOkB, endInvB]
    · rw [ReasoningWorkflow.produced, rw_run_of_error hinv]
      simp [rwTraceStop, chainB, statusStepOkB, endInvB]
    · rw [ReasoningWorkflow.produced, rw_run_of_error hinv]
      simp [rwTraceFull, chainB, statusStepOkB, endInvB]
    · rw [ReasoningWorkflow.produced, rw_run_of_ok hinv]
      simp [rwTraceFull, chainB, statusStepOkB, endInvB]

/-- C9: in every state an ingestion run produces — including the final
state of a fully successful run — `embedding_generated` is false: the
workflow's process step copies only the node ids and embedding tuples out
of the agent result and discards the agent's state copy, which is the
only place the flag is ever set to true. -/
theorem embedding_generated_spec (o : Oracle) (wid content : String)
    (metadata : List (String × String)) (source : Option String) :
    (KnowledgeWorkflow.produced o wid content metadata source).all
      (fun s => s.embedding_generated == false) = true
    ∧ (∀ (s : KIState) (r : ProcessResult), IngestionAgent.process_content o s = .ok r →
        r.state.embedding_generated = true) := by
  constructor
  · rcases knowledge_invoke_shape o (KnowledgeWorkflow.initial_state o wid content metadata source)
      with ⟨hsp, hinv⟩ | ⟨hsp, ⟨e, hp, hinv⟩ | ⟨r, hp, ⟨e, hst, hinv⟩ |
        ⟨hst, ⟨hn, hinv⟩ | ⟨hn, hinv⟩⟩⟩⟩
    · rw [KnowledgeWorkflow.produced, kw_run_of_ok hinv]
      simp
    · rw [KnowledgeWorkflow.produced, kw_run_of_error hinv]
      simp
    · rw [KnowledgeWorkflow.produced, kw_run_of_error hinv]
      simp [kwFullTrace]
    · rw [KnowledgeWorkflow.produced, kw_run_of_error hinv]
      simp [kwFullTrace]
    · rw [KnowledgeWorkflow.produced, kw_run_of_ok hinv]
      simp [kwFullTrace]
  · intro s r h
    unfold IngestionAgent.process_content at h
    dsimp only at h
    split at h
    · cases h
    · cases h
      rfl

/-- Oracle that chunks content into a single chunk. -/
def oneChunkOracle : Oracle :=
  { trivOracle with split_text := fun c => [c] }

/-- Fallback process result for extraction. -/
def c9dummy : ProcessResult :=
  { nodes := [], embeddings := [],
    state := KnowledgeWorkflow.initial_state trivOracle "d" "d" [] none }

/-- Concrete ingestion state for the C9 witness. -/
def c9state : KIState :=
  KnowledgeWorkflow.initial_state oneChunkOracle "w9" "several words of valid content here" [] none

/-- The agent result on `c9state`. -/
def c9res : ProcessResult :=
  exceptOkOr c9dummy (IngestionAgent.process_content oneChunkOracle c9state)

/-- Witness for C9: the agent's own state copy does carry the flag. -/
theorem embedding_generated_spec_witness :
    IngestionAgent.process_content oneChunkOracle c9state = .ok c9res
    ∧ c9res.state.embedding_generated = true := by
  refine ⟨rfl, ?_⟩
  exact (embedding_generated_spec oneChunkOracle "w9" "several words of valid content here"
    [] none).2 c9state c9res rfl

/-- C3 counterexample: the concrete content "short" fails validation, the
run terminates normally on the reject edge, yet its terminal state still
has status "running", not "completed" — the reject edge goes straight to
END without passing through `finalize_ingestion`. -/
theorem reject_terminal_counterexample :
    (IngestionAgent.validate_content
      (KnowledgeWorkflow.initial_state trivOracle "w3" "short" [] none)).is_valid = false
    ∧ (KnowledgeWorkflow.run trivOracle "w3" "short" [] none).2.status = "running"
    ∧ ¬ (KnowledgeWorkflow.run trivOracle "w3" "short" [] none).2.status = "completed" := by
  refine ⟨by decide, by decide, by decide⟩

/-- C3 (amended): a validation-failing ingestion run terminates normally
without raising, routed to the reject terminal instead of full
processing; its terminal state keeps status "running" with no end_time
and no created nodes (finalize never runs on this path). -/
theorem reject_terminal_amended (o : Oracle) (wid content : String)
    (metadata : List (String × String)) (source : Option String)
    (h : (IngestionAgent.validate_content
      (KnowledgeWorkflow.initial_state o wid content metadata source)).is_valid = false) :
    KnowledgeWorkflow.invoke o (KnowledgeWorkflow.initial_state o wid content metadata source) =
      .ok ([("validate_content", KnowledgeWorkflow.validate_state
          (KnowledgeWorkflow.initial_state o wid content metadata source))],
        KnowledgeWorkflow.validate_state
          (KnowledgeWorkflow.initial_state o wid content metadata source))
    ∧ KnowledgeWorkflow.run o wid content metadata source =
        ([("validate_content", KnowledgeWorkflow.validate_state
            (KnowledgeWorkflow.initial_state o wid content metadata source))],
          KnowledgeWorkflow.validate_state
            (KnowledgeWorkflow.initial_state o wid content metadata source))
    ∧ KnowledgeWorkflow.should_process (KnowledgeWorkflow.validate_state
        (KnowledgeWorkflow.initial_state o wid content metadata source)) = "reject"
    ∧ (KnowledgeWorkflow.validate_state
        (KnowledgeWorkflow.initial_state o wid content metadata source)).status = "running"
    ∧ (KnowledgeWorkflow.validate_state
        (KnowledgeWorkflow.initial_state o wid content metadata source)).end_time = none
    ∧ (KnowledgeWorkflow.validate_state
        (KnowledgeWorkflow.initial_state o wid content metadata source)).nodes_created = [] := by
  have hsp : KnowledgeWorkflow.should_process (KnowledgeWorkflow.validate_state
      (KnowledgeWorkflow.initial_state o wid content metadata source)) = "reject" := by
    simp [KnowledgeWorkflow.should_process, KnowledgeWorkflow.validate_state, h]
  have hinv : KnowledgeWorkflow.invoke o
      (KnowledgeWorkflow.initial_state o wid content metadata source) =
      .ok ([("validate_content", KnowledgeWorkflow.validate_state
          (KnowledgeWorkflow.initial_state o wid content metadata source))],
        KnowledgeWorkflow.validate_state
          (KnowledgeWorkflow.initial_state o wid content metadata source)) := by
    unfold KnowledgeWorkflow.invoke
    simp [applyStep, KnowledgeWorkflow.validate_content, hsp]
  refine ⟨hinv, kw_run_of_ok hinv, hsp, by simp, by simp, ?_⟩
  simp [KnowledgeWorkflow.initial_state]

/-- Witness for the amended C3 at the concrete content "short". -/
theorem reject_terminal_amended_witness :
    (IngestionAgent.validate_content
      (KnowledgeWorkflow.initial_state trivOracle "w3b" "short" [] none)).is_valid = false
    ∧ KnowledgeWorkflow.should_process (KnowledgeWorkflow.validate_state
        (KnowledgeWorkflow.initial_state trivOracle "w3b" "short" [] none)) = "reject"
    ∧ (KnowledgeWorkflow.validate_state
        (KnowledgeWorkflow.initial_state trivOracle "w3b" "short" [] none)).status = "running"
    ∧ (KnowledgeWorkflow.validate_state
        (KnowledgeWorkflow.initial_state trivOracle "w3b" "short" [] none)).end_time = none := by
  have h := reject_terminal_amended trivOracle "w3b" "short" [] none (by decide)
  exact ⟨by decide, h.2.2.1, h.2.2.2.1, h.2.2.2.2.1⟩

/-- C1: whenever any step of an ingestion or reasoning invocation raises,
the top-level run wrapper catches it, marks its last-known state (the
initial envelope) with status failed, records the description in error,
sets end_time, and returns that state; the executed-step trace is an
initial segment of the linear step order, so nothing was retried and
nothing past the failing step was executed. -/
theorem run_failure_spec (o : Oracle) (wid content q : String)
    (metadata ctx : List (String × String)) (source : Option String) :
    (∀ tr e, KnowledgeWorkflow.invoke o
        (KnowledgeWorkflow.initial_state o wid content metadata source) = .error (tr, e) →
      KnowledgeWorkflow.run o wid content metadata source =
        (tr, { KnowledgeWorkflow.initial_state o wid content metadata source with
                 status := "failed", error := some e, end_time := some o.now })
      ∧ isInitSeg (tr.map Prod.fst) ingestionStepOrder = true)
    ∧ (∀ tr e, ReasoningWorkflow.invoke o
        (ReasoningWorkflow.initial_state o wid q ctx) = .error (tr, e) →
      ReasoningWorkflow.run o wid q ctx =
        (tr, { ReasoningWorkflow.initial_state o wid q ctx with
                 status := "failed", error := some e, end_time := some o.now })
      ∧ isInitSeg (tr.map Prod.fst) reasoningStepOrder = true) := by
  constructor
  · intro tr e h
    refine ⟨kw_run_of_error h, ?_⟩
    rcases knowledge_invoke_shape o (KnowledgeWorkflow.initial_state o wid content metadata source)
      with ⟨hsp, hinv⟩ | ⟨hsp, ⟨e2, hp, hinv⟩ | ⟨r, hp, ⟨e2, hst, hinv⟩ |
        ⟨hst, ⟨hn, hinv⟩ | ⟨hn, hinv⟩⟩⟩⟩
    · rw [hinv] at h; cases h
    · rw [hinv] at h
      injection h with h2
      injection h2 with h3 h4
      subst h3
      simp [isInitSeg, ingestionStepOrder]
    · rw [hinv] at h
      injection h with h2
      injection h2 with h3 h4
      subst h3
      simp [kwFullTrace, isInitSeg, ingestionStepOrder]
    · rw [hinv] at h
      injection h with h2
      injection h2 with h3 h4
      subst h3
      simp [kwFullTrace, isInitSeg, ingestionStepOrder]
    · rw [hinv] at h; cases h
  · intro tr e h
    refine ⟨rw_run_of_error h, ?_⟩
    rcases reasoning_invoke_shape o (ReasoningWorkflow.initial_state o wid q ctx)
      with ⟨e2, hinv⟩ | ⟨t1, hl1, ⟨e2, hinv⟩ | ⟨vrs, grs, hr, ⟨hc, hinv⟩ |
        ⟨hc, ⟨e2, hinv⟩ | ⟨t2, ⟨e2, hinv⟩ | ⟨t3, hinv⟩⟩⟩⟩⟩
    · rw [hinv] at h
      injection h with h2
      injection h2 with h3 h4
      subst h3
      simp [isInitSeg, reasoningStepOrder]
    · rw [hinv] at h
      injection h with h2
      injection h2 with h3 h4
      subst h3
      simp [isInitSeg, reasoningStepOrder]
    · rw [hinv] at h; cases h
    · rw [hinv] at h
      injection h with h2
      injection h2 with h3 h4
      subst h3
      simp [rwTraceStop, isInitSeg, reasoningStepOrder]
    · rw [hinv] at h
      injection h with h2
      injection h2 with h3 h4
      subst h3
      simp [rwTraceFull, isInitSeg, reasoningStepOrder]
    · rw [hinv] at h; cases h

/-- Oracle whose embedding and LLM collaborators raise. -/
def failOracle : Oracle :=
  { trivOracle with
      split_text := fun c => [c]
      encode := fun _ => .error "boom"
      llm := fun _ => .error "llm down" }

/-- Valid concrete content for the C1 witness. -/
def c1content : String := "The quick brown fox jumps over the lazy dog"

/-- The trace/description pair of the failing ingestion invocation. -/
def c1pairK : List (String × KIState) × String :=
  match KnowledgeWorkflow.invoke failOracle
    (KnowledgeWorkflow.initial_state failOracle "w1" c1content [] none) with
  | .error te => te
  | .ok (tr, _) => (tr, "")

/-- Witness for C1: with an embedding collaborator that raises, the
ingestion run comes back failed with the failure description recorded,
and only an initial segment of the step order executed. -/
theorem run_failure_spec_witness :
    KnowledgeWorkflow.invoke failOracle
      (KnowledgeWorkflow.initial_state failOracle "w1" c1content [] none) =
      .error (c1pairK.1, c1pairK.2)
    ∧ KnowledgeWorkflow.run failOracle "w1" c1content [] none =
        (c1pairK.1, { KnowledgeWorkflow.initial_state failOracle "w1" c1content [] none with
                        status := "failed", error := some c1pairK.2,
                        end_time := some failOracle.now })
    ∧ isInitSeg (c1pairK.1.map Prod.fst) ingestionStepOrder = true := by
  have h := (run_failure_spec failOracle "w1" c1content "q" [] [] none).1
    c1pairK.1 c1pairK.2 rfl
  exact ⟨rfl, h.1, h.2⟩

/-- Inversion: a successful run of the unconditional reasoning front
yields the analyze/retrieve/check trace and the check-step state. -/
theorem firstSteps_ok {o : Oracle} {s0 : RState} {tr : List (String × RState)} {s3 : RState}
    (h : ReasoningWorkflow.firstSteps o s0 = .ok (tr, s3)) :
    ∃ t1 vrs grs,
      tr = [("analyze_query", ReasoningWorkflow.analyze_state t1 s0),
            ("retrieve_knowledge", ReasoningWorkflow.retrieve_state vrs grs
              (ReasoningWorkflow.analyze_state t1 s0)),
            ("check_contradictions", ReasoningWorkflow.check_state
              (ReasoningWorkflow.retrieve_state vrs grs
                (ReasoningWorkflow.analyze_state t1 s0)))]
      ∧ s3 = ReasoningWorkflow.check_state (ReasoningWorkflow.retrieve_state vrs grs
          (ReasoningWorkflow.analyze_state t1 s0)) := by
  unfold ReasoningWorkflow.firstSteps at h
  cases ha : ReasoningWorkflow.analyze_query o s0 with
  | error e => simp [applyStep, ha] at h
  | ok s1 =>
    obtain ⟨t1, _, rfl⟩ := analyze_query_ok ha
    cases hr : ReasoningWorkflow.retrieve_knowledge o (ReasoningWorkflow.analyze_state t1 s0) with
    | error e => simp [applyStep, ha, hr] at h
    | ok s2 =>
      obtain ⟨vrs, grs, rfl⟩ := retrieve_knowledge_ok hr
      simp only [applyStep, ha, hr, ReasoningWorkflow.check_contradictions,
        Except.ok.injEq, Prod.mk.injEq] at h
      exact ⟨t1, vrs, grs, by simp [← h.1], h.2.symm⟩

/-- C7: when the contradiction check flags more than 2 conflicting
entries, the run goes from check_contradictions directly to
finalize_reasoning — generate_reasoning, identify_gaps and
formulate_answer never execute — and the final state has answer unset,
status completed, and end_time set. -/
theorem contradiction_stop_spec (o : Oracle) (wid q : String) (ctx : List (String × String))
    (tr : List (String × RState)) (s3 : RState)
    (hfs : ReasoningWorkflow.firstSteps o (ReasoningWorkflow.initial_state o wid q ctx) =
      .ok (tr, s3))
    (hc : 2 < s3.contradictions_found.length) :
    ReasoningWorkflow.run o wid q ctx =
      (tr ++ [("finalize_reasoning", ReasoningWorkflow.finalize_state o s3)],
        ReasoningWorkflow.finalize_state o s3)
    ∧ tr.map Prod.fst = ["analyze_query", "retrieve_knowledge", "check_contradictions"]
    ∧ (ReasoningWorkflow.run o wid q ctx).2.status = "completed"
    ∧ (ReasoningWorkflow.run o wid q ctx).2.end_time = some o.now
    ∧ (ReasoningWorkflow.run o wid q ctx).2.answer = none
    ∧ "generate_reasoning" ∉ (ReasoningWorkflow.run o wid q ctx).1.map Prod.fst
    ∧ "identify_gaps" ∉ (ReasoningWorkflow.run o wid q ctx).1.map Prod.fst
    ∧ "formulate_answer" ∉ (ReasoningWorkflow.run o wid q ctx).1.map Prod.fst := by
  have hstop : ReasoningWorkflow.should_continue_reasoning s3 = "stop" := by
    simp [ReasoningWorkflow.should_continue_reasoning, hc]
  have hinv : ReasoningWorkflow.invoke o (ReasoningWorkflow.initial_state o wid q ctx) =
      .ok (tr ++ [("finalize_reasoning", ReasoningWorkflow.finalize_state o s3)],
        ReasoningWorkflow.finalize_state o s3) := by
    unfold ReasoningWorkflow.invoke
    rw [hfs]
    dsimp only
    rw [if_pos hstop]
    simp [applyStep, ReasoningWorkflow.finalize_reasoning]
  have hrun := rw_run_of_ok hinv
  obtain ⟨t1, vrs, grs, htr, hs3⟩ := firstSteps_ok hfs
  refine ⟨hrun, by rw [htr]; rfl, ?_, ?_, ?_, ?_, ?_, ?_⟩
  · rw [hrun]
    simp
  · rw [hrun]
    simp
  · rw [hrun]
    simp [hs3]
  · rw [hrun]
    simp [htr]
  · rw [hrun]
    simp [htr]
  · rw [hrun]
    simp [htr]

/-- Oracle whose vector store returns two records that each contain both
"is" and "is not", so the self-comparison flags all four ordered pairs. -/
def c7oracle : Oracle :=
  { trivOracle with
      llm := fun _ => .ok "analysis"
      encode := fun _ => .ok [1]
      search_similar := fun _ _ => .ok
        [{ id := "a1", score := 1, metadata := [("content", "it is not cold")] },
         { id := "a2", score := 1, metadata := [("content", "it is not warm")] }]
      search_nodes := fun _ _ => .ok [] }

/-- Fallback reasoning state for extraction. -/
def c7dummyR : RState := ReasoningWorkflow.initial_state trivOracle "d" "d" []

/-- The trace and check-step state of the C7 witness run's front. -/
def c7pair : List (String × RState) × RState :=
  exceptOkOr ([], c7dummyR)
    (ReasoningWorkflow.firstSteps c7oracle (ReasoningWorkflow.initial_state c7oracle "w7" "q" []))

/-- Witness for C7: with four contradicting pairs flagged, the run stops
straight at finalize with no answer and status completed. -/
theorem contradiction_stop_spec_witness :
    ReasoningWorkflow.firstSteps c7oracle (ReasoningWorkflow.initial_state c7oracle "w7" "q" []) =
      .ok (c7pair.1, c7pair.2)
    ∧ 2 < c7pair.2.contradictions_found.length
    ∧ (ReasoningWorkflow.run c7oracle "w7" "q" []).2.status = "completed"
    ∧ (ReasoningWorkflow.run c7oracle "w7" "q" []).2.answer = none
    ∧ "generate_reasoning" ∉ (ReasoningWorkflow.run c7oracle "w7" "q" []).1.map Prod.fst := by
  have h := contradiction_stop_spec c7oracle "w7" "q" [] c7pair.1 c7pair.2 rfl (by decide)
  exact ⟨rfl, by decide, h.2.2.1, h.2.2.2.2.1, h.2.2.2.2.2.1⟩
